import Mathlib

/-!
Verification of the PharmaGuard core (VCF parser + pharmacogenomic risk
engine) against its natural-language specification.

The Python sources `backend/app/vcf_parser.py` and
`backend/app/pharma_engine.py` are shallowly embedded below.  Modelling
conventions:

* Python strings are Lean `String`s; the string operations used by the
  code (`strip`, `split`, `splitlines`, `lower`, `replace`, `in`, …) are
  re-implemented over `List Char` with Python's semantics (restricted to
  the ASCII whitespace/word/digit classes actually exercised here).
* `int(...)` is `pyInt` (optional surrounding whitespace, optional sign,
  digits with single underscores between digits); failure is `none`
  (Python raises `ValueError`, which every caller catches).
* `float(...)` values are never inspected numerically by the code under
  verification, only parsed; a quality score is therefore carried as the
  raw token whose parse succeeded (`pyFloatOk`), keeping the record
  comparable without modelling IEEE semantics.  The fixed confidence
  constants 0.95/0.85/0.80/0.90 are only ever looked up and compared, so
  they are modelled as rationals.
* The `RiskLevel` enum is a `str`-enum in the source; it is modelled by
  its string value, with `mk_risk_level` performing the constructor's
  validation (raising `ValueError` on an unknown value).
* Uncaught Python exceptions are modelled with `Except PyExc`.
* The drug–gene knowledge base `drug_gene_db.json` ships with the
  repository but is data, not code; engine functions take it as an
  explicit parameter of the shape the engine reads (`db["drugs"]`,
  keyed by lower-cased drug id).  Phenotype-entry fields are `Option`s
  because the engine accesses them with `.get` and defaults.
* `convert_to_required_schema` reads the wall clock for its timestamp;
  the embedding takes the timestamp as an explicit parameter.
-/

namespace PharmaGuard

/-! ## Python-style character classes and string primitives -/

/-- ASCII whitespace as stripped by `str.strip()` / matched by `\s`. -/
def isPySpace (c : Char) : Bool :=
  c = ' ' || c = '\t' || c = '\n' || c = '\r' || c = '\x0b' || c = '\x0c'

/-- ASCII model of the regex class `\w`. -/
def isWordCharPy (c : Char) : Bool :=
  c.isAlpha || c.isDigit || c = '_'

/-- Drop characters satisfying `p` from both ends of a list. -/
def stripChars (p : Char → Bool) (cs : List Char) : List Char :=
  ((cs.dropWhile p).reverse.dropWhile p).reverse

/-- `str.strip()` with no argument: strip whitespace from both ends. -/
def pyStrip (s : String) : String :=
  String.mk (stripChars isPySpace s.toList)

/-- `str.lstrip("#")`: drop leading `'#'` characters. -/
def pyLstripHash (s : String) : String :=
  String.mk (s.toList.dropWhile (· = '#'))

/-- `str.lower()` (ASCII model). -/
def pyLower (s : String) : String :=
  String.mk (s.toList.map Char.toLower)

/-- `str.upper()` (ASCII model). -/
def pyUpper (s : String) : String :=
  String.mk (s.toList.map Char.toUpper)

/-- `str.capitalize()`: first character upper-cased, the rest lower-cased. -/
def pyCapitalize (s : String) : String :=
  match s.toList with
  | [] => ""
  | c :: cs => String.mk (c.toUpper :: cs.map Char.toLower)

/-- `needle in haystack` for character lists. -/
def isSubL (pat : List Char) : List Char → Bool
  | [] => pat.isEmpty
  | c :: cs => pat.isPrefixOf (c :: cs) || isSubL pat cs

/-- Python's substring test `needle in hay`. -/
def containsSub (needle hay : String) : Bool :=
  isSubL needle.toList hay.toList

/-- `hay.startswith(pre)`. -/
def pyStartsWith (pre s : String) : Bool :=
  pre.toList.isPrefixOf s.toList

/-- `str.split(sep)` for a single-character separator (every separator
the sources pass to `split` is one character). -/
def splitOnChar (sep : Char) : List Char → List (List Char)
  | [] => [[]]
  | c :: cs =>
    let r := splitOnChar sep cs
    if c = sep then [] :: r
    else
      match r with
      | [] => [[c]]
      | p :: ps => (c :: p) :: ps

/-- `str.split(sep)` returning strings. -/
def pySplitChar (sep : Char) (s : String) : List String :=
  (splitOnChar sep s.toList).map String.mk

/-- `str.split(sep, 1)` when the separator is known to occur:
the part before the first `sep` and the part after it. -/
def splitOnceChar (sep : Char) : List Char → (List Char × List Char)
  | [] => ([], [])
  | c :: cs =>
    if c = sep then ([], cs)
    else
      let r := splitOnceChar sep cs
      (c :: r.1, r.2)

/-- `str.replace(pat, rep)` for a non-empty pattern `p0 :: prest`,
structured on a fuel argument (`fuel ≥ length of the input` makes the
first clause unreachable) so that it stays kernel-reducible. -/
def replaceNE (p0 : Char) (prest rep : List Char) : Nat → List Char → List Char
  | 0, cs => cs
  | _ + 1, [] => []
  | fuel + 1, c :: cs =>
    if (p0 :: prest).isPrefixOf (c :: cs) then
      rep ++ replaceNE p0 prest rep fuel ((c :: cs).drop (prest.length + 1))
    else
      c :: replaceNE p0 prest rep fuel cs

/-- `str.replace(pat, rep)` (the sources never call it with an empty
pattern, for which Python would interleave `rep` between characters). -/
def pyReplace (pat rep s : String) : String :=
  match pat.toList with
  | [] => s
  | p :: ps => String.mk (replaceNE p ps rep.toList s.toList.length s.toList)

/-- `str.splitlines()` over `\n`, `\r\n`, `\r` and the remaining
one-character line breaks Python recognises. -/
def isOtherLineBreak (c : Char) : Bool :=
  c = '\x0b' || c = '\x0c' || c = '\x1c' || c = '\x1d' || c = '\x1e' ||
  c = '\x85' || c = '\u2028' || c = '\u2029'

def splitlinesGo (acc : List Char) : List Char → List (List Char)
  | [] => if acc.isEmpty then [] else [acc.reverse]
  | '\r' :: '\n' :: cs => acc.reverse :: splitlinesGo [] cs
  | c :: cs =>
    if c = '\n' || c = '\r' || isOtherLineBreak c then
      acc.reverse :: splitlinesGo [] cs
    else
      splitlinesGo (c :: acc) cs

/-- `str.splitlines()`. -/
def pySplitlines (s : String) : List String :=
  (splitlinesGo [] s.toList).map String.mk

/-! ## `int(...)` and `float(...)` parse models -/

/-- Digit run with Python's "single underscores between digits" rule;
returns the accumulated value, consuming the whole input. -/
def pyDigitsGo (acc : Nat) : List Char → Option Nat
  | [] => some acc
  | c :: cs =>
    if c.isDigit then pyDigitsGo (acc * 10 + (c.toNat - 48)) cs
    else if c = '_' then
      match cs with
      | d :: cs2 =>
        if d.isDigit then pyDigitsGo (acc * 10 + (d.toNat - 48)) cs2 else none
      | [] => none
    else none

/-- A digit run (underscores allowed between digits), must start with a
digit and consume the whole list. -/
def pyDigits : List Char → Option Nat
  | [] => none
  | c :: cs => if c.isDigit then pyDigitsGo (c.toNat - 48) cs else none

/-- Python `int(str)`: surrounding whitespace, optional sign, digit run.
`none` models the `ValueError` (caught by every caller in the sources). -/
def pyInt (s : String) : Option Int :=
  let cs := stripChars isPySpace s.toList
  match cs with
  | '+' :: rest => (pyDigits rest).map Int.ofNat
  | '-' :: rest => (pyDigits rest).map (fun n => -(n : Int))
  | _ => (pyDigits cs).map Int.ofNat

/-- Rest of a digit run already begun (underscores allowed between
digits): returns the unconsumed remainder. -/
def takeDigRunGo : List Char → List Char
  | [] => []
  | c :: cs =>
    if c.isDigit then takeDigRunGo cs
    else if c = '_' then
      match cs with
      | d :: cs2 => if d.isDigit then takeDigRunGo cs2 else c :: cs
      | [] => c :: cs
    else c :: cs

/-- Consume a leading digit run (underscores allowed between digits);
`none` when there is no leading digit. -/
def takeDigRun : List Char → Option (List Char)
  | [] => none
  | c :: cs =>
    if c.isDigit then
      some (takeDigRunGo cs)
    else none

/-- After the mantissa: an optional exponent, then end of input. -/
def pyFloatExpOk : List Char → Bool
  | [] => true
  | c :: cs =>
    if c = 'e' || c = 'E' then
      match cs with
      | '+' :: rest => (takeDigRun rest).elim false List.isEmpty
      | '-' :: rest => (takeDigRun rest).elim false List.isEmpty
      | rest => (takeDigRun rest).elim false List.isEmpty
    else false

/-- Mantissa of a float literal: `D[.D?]`, `.D`, or `D.`; returns the
rest on success. -/
def pyFloatMantissa (cs : List Char) : Option (List Char) :=
  match takeDigRun cs with
  | some rest =>
    match rest with
    | '.' :: rest2 =>
      match takeDigRun rest2 with
      | some rest3 => some rest3
      | none => some rest2
    | _ => some rest
  | none =>
    match cs with
    | '.' :: rest =>
      match takeDigRun rest with
      | some rest2 => some rest2
      | none => none
    | _ => none

/-- Python `float(str)` parse success (value itself is never inspected
by the code under verification). -/
def pyFloatOk (s : String) : Bool :=
  let cs := stripChars isPySpace s.toList
  let body := fun (cs : List Char) =>
    let low := cs.map Char.toLower
    if low = "inf".toList || low = "infinity".toList || low = "nan".toList then
      true
    else
      (pyFloatMantissa cs).elim false pyFloatExpOk
  match cs with
  | '+' :: rest => body rest
  | '-' :: rest => body rest
  | rest => body rest

/-! ## Dictionaries (insertion-ordered association lists) -/

/-- `d.get(k)` / `d[k]`: first (unique) binding of `k`. -/
def assocFind {α : Type} : List (String × α) → String → Option α
  | [], _ => none
  | (k', v) :: rest, k => if k' = k then some v else assocFind rest k

/-- `d[k] = v`: overwrite in place when present, append otherwise. -/
def dictSet {α : Type} : List (String × α) → String → α → List (String × α)
  | [], k, v => [(k, v)]
  | (k', v') :: rest, k, v =>
    if k' = k then (k', v) :: rest else (k', v') :: dictSet rest k v

/-- `d.get(k, dflt)`. -/
def dictGetD {α : Type} (m : List (String × α)) (k : String) (dflt : α) : α :=
  (assocFind m k).getD dflt

/-! ## Data model (backend/app/models.py) -/

/-- An INFO annotation value: `key=value` gives a string, a bare flag
token gives boolean `True`. -/
inductive InfoVal : Type
  | str (v : String)
  | flag
deriving DecidableEq, Repr

/-- A meta-information value: a single string, turned into a list when
the same `##key` repeats. -/
inductive MetaVal : Type
  | s (v : String)
  | l (vs : List String)
deriving DecidableEq, Repr

/-- `models.Variant`.  `quality` holds the raw column-5 token whose
`float(...)` parse succeeded (values are never inspected numerically). -/
structure Variant : Type where
  chrom : String
  pos : Int
  rsid : Option String := none
  ref : String
  alt : String
  quality : Option String := none
  filter_status : String := "."
  info : List (String × InfoVal) := []
  genotype : Option String := none
deriving DecidableEq, Repr

/-- The four-field result of `parse_vcf`. -/
structure ParseResult : Type where
  variants : List Variant
  sample_ids : List String
  total_variants : Nat
  meta_info : List (String × MetaVal)
deriving DecidableEq, Repr

/-- Uncaught Python exceptions that can escape the engine. -/
inductive PyExc : Type
  | indexError
  | valueError
deriving DecidableEq, Repr

/-- One genotype entry of an interaction's `phenotypes` map; fields are
optional because the engine reads them with `.get(..., default)`. -/
structure PhenoData : Type where
  level : Option String := none
  phenotype : Option String := none
  recommendation : Option String := none
deriving DecidableEq, Repr

/-- The `{}` default used by `phenotypes.get(..., {})`. -/
def emptyPheno : PhenoData := {}

/-- One entry of a drug's `interactions` list, with the fields the
engine reads (`rsid`, `gene`, `risk_allele` by direct indexing;
`normal_allele` and `evidence` via `.get` with defaults). -/
structure Interaction : Type where
  rsid : String
  gene : String
  risk_allele : String
  normal_allele : Option String := none
  evidence : List String := []
  phenotypes : List (String × PhenoData) := []
deriving DecidableEq, Repr

/-- One drug entry of the knowledge base. -/
structure DrugInfo : Type where
  name : String
  category : String := ""
  interactions : List Interaction := []
deriving DecidableEq, Repr

/-- The knowledge base's `db["drugs"]` mapping, keyed by lower-cased
drug id. -/
abbrev DB : Type := List (String × DrugInfo)

/-- `models.DrugRiskResult` (risk_level is the `str`-enum's value;
defaults as declared in models.py). -/
structure DrugRiskResult : Type where
  drug_name : String
  gene : String
  variant : Option String := none
  rsid : Option String := none
  genotype : Option String := none
  risk_level : String := "NORMAL"
  phenotype : String := "Normal Metabolizer"
  recommendation : String := "Use standard dosing guidelines."
  evidence_sources : List String := []
deriving DecidableEq, Repr

/-- `models.LLMExplanation` (opaque pass-through content). -/
structure LLMExplanation : Type where
  summary : String
  biological_mechanism : String
  clinical_significance : String
  variant_citations : List String := []
deriving DecidableEq, Repr

/-- `models.AnalysisResult`. -/
structure AnalysisResult : Type where
  drug_risk : DrugRiskResult
  llm_explanation : Option LLMExplanation := none
deriving DecidableEq, Repr

/-- `models.DetectedVariant`. -/
structure DetectedVariant : Type where
  rsid : String
  gene : String
  allele_change : Option String := none
  genotype : Option String := none
  quality : Option String := none
  filter_status : String := "PASS"
deriving DecidableEq, Repr

/-- `models.RiskAssessment`; the confidence constants are only looked
up and compared, so they are rationals. -/
structure RiskAssessment : Type where
  risk_label : String
  confidence_score : ℚ := 0.85
  severity : String := "none"
deriving DecidableEq, Repr

/-- `models.PharmacogenomicProfile`. -/
structure PharmacogenomicProfile : Type where
  primary_gene : String
  diplotype : String := "*1/*1"
  phenotype : String := "NM"
  detected_variants : List DetectedVariant := []
deriving DecidableEq, Repr

/-- `models.ClinicalRecommendation`. -/
structure ClinicalRecommendation : Type where
  action : String := "Use standard dosing guidelines."
  dosage_adjustment : Option String := none
  alternative_drugs : List String := []
  monitoring : Option String := none
  evidence_sources : List String := []
deriving DecidableEq, Repr

/-- `models.QualityMetrics`. -/
structure QualityMetrics : Type where
  vcf_parsing_success : Bool := true
  total_variants_parsed : Nat := 0
  pharmacogenomic_variants_found : Nat := 0
  analysis_confidence : ℚ := 0.85
  gene_coverage : ℚ := 1.0
deriving DecidableEq, Repr

/-- `models.PharmaGuardResult`: the contractually fixed output record. -/
structure PharmaGuardResult : Type where
  patient_id : String := "PATIENT_001"
  drug : String
  timestamp : String
  risk_assessment : RiskAssessment
  pharmacogenomic_profile : PharmacogenomicProfile
  clinical_recommendation : ClinicalRecommendation
  llm_generated_explanation : Option LLMExplanation := none
  quality_metrics : QualityMetrics
deriving DecidableEq, Repr

/-! ## VCF parser (backend/app/vcf_parser.py) -/

/-- `_parse_info`: semicolon-separated `key=value` pairs or bare flag
tokens; literal "." gives the empty map. -/
def parse_info (s : String) : List (String × InfoVal) :=
  if s = "." then []
  else
    (pySplitChar ';' s).foldl
      (fun m item =>
        if containsSub "=" item then
          let kv := splitOnceChar '=' item.toList
          dictSet m (String.mk kv.1) (.str (String.mk kv.2))
        else
          dictSet m item .flag)
      []

/-- `list.index(x)` (Python semantics: position of the first match). -/
def listIndex : List String → String → Option Nat
  | [], _ => none
  | x :: xs, k =>
    if x = k then some 0 else (listIndex xs k).map (· + 1)

/-- `_extract_genotype`: locate `"GT"` in the colon-split FORMAT column
and read the same position of the colon-split sample column; a missing
`"GT"` (ValueError) or short sample column (IndexError) gives `None`. -/
def extract_genotype (format_field sample_field : String) : Option String :=
  let fmt_keys := pySplitChar ':' format_field
  let sample_vals := pySplitChar ':' sample_field
  match listIndex fmt_keys "GT" with
  | none => none
  | some gt_idx => sample_vals.get? gt_idx

/-- The `^##(\w+)=(.+)$` match of `_parse_meta_line`: key is a non-empty
word-character run after `##`, value the non-empty remainder after `=`. -/
def metaMatch (cs : List Char) : Option (String × String) :=
  match cs with
  | '#' :: '#' :: rest =>
    let key := rest.takeWhile isWordCharPy
    let rest2 := rest.dropWhile isWordCharPy
    if key.isEmpty then none
    else
      match rest2 with
      | '=' :: value =>
        if value.isEmpty then none else some (String.mk key, String.mk value)
      | _ => none
  | _ => none

/-- `_parse_meta_line`: accumulate repeated keys into a list. -/
def parse_meta_line (line : String) (meta : List (String × MetaVal)) :
    List (String × MetaVal) :=
  match metaMatch line.toList with
  | none => meta
  | some (key, value) =>
    match assocFind meta key with
    | none => dictSet meta key (.s value)
    | some (.s old) => dictSet meta key (.l [old, value])
    | some (.l olds) => dictSet meta key (.l (olds ++ [value]))

/-- `_parse_variant_line`: parse one tab-split data line; any
`ValueError`/`IndexError` (bad position, bad quality, short row) gives
`None`. -/
def parse_variant_line (fields : List String) : Option Variant :=
  match fields.get? 0, fields.get? 1, fields.get? 2, fields.get? 3,
        fields.get? 4, fields.get? 5, fields.get? 6, fields.get? 7 with
  | some chrom, some posStr, some idStr, some refStr, some altStr,
    some qualStr, some filt, some infoStr =>
    match pyInt posStr with
    | none => none
    | some pos =>
      match (if qualStr = "." then some none
             else if pyFloatOk qualStr then some (some qualStr) else none) with
      | none => none
      | some quality =>
        let genotype :=
          if fields.length > 9 then
            match fields.get? 8, fields.get? 9 with
            | some fmt, some sample => extract_genotype fmt sample
            | _, _ => none
          else none
        some { chrom := chrom, pos := pos,
               rsid := if idStr = "." then none else some idStr,
               ref := refStr, alt := altStr, quality := quality,
               filter_status := filt, info := parse_info infoStr,
               genotype := genotype }
  | _, _, _, _, _, _, _, _ => none

/-- The parser's loop state. -/
structure ParseState : Type where
  meta_info : List (String × MetaVal) := []
  header_cols : List String := []
  sample_ids : List String := []
  variants : List Variant := []
deriving DecidableEq, Repr

/-- The multi-allelic handling at the end of `parse_vcf`'s loop body:
explode a comma-separated `alt` into one record per allele, otherwise
append the single record. -/
def appendVariantRecords (st : ParseState) (v : Variant) : ParseState :=
  let alts := pySplitChar ',' v.alt
  if alts.length > 1 then
    { st with variants :=
        st.variants ++ alts.map (fun a => { v with alt := pyStrip a }) }
  else
    { st with variants := st.variants ++ [v] }

/-- One iteration of the `for line in lines` loop of `parse_vcf`. -/
def processLine (st : ParseState) (rawLine : String) : ParseState :=
  let line := pyStrip rawLine
  if line = "" then st
  else if pyStartsWith "##" line then
    { st with meta_info := parse_meta_line line st.meta_info }
  else if pyStartsWith "#CHROM" line || pyStartsWith "#chrom" line then
    let header_cols := pySplitChar '\t' (pyLstripHash line)
    let sample_ids :=
      if header_cols.length > 9 then header_cols.drop 9
      else if header_cols.length > 8 then
        (if header_cols.length > 9 then header_cols.drop 9 else [])
      else st.sample_ids
    { st with header_cols := header_cols, sample_ids := sample_ids }
  else
    let fields := pySplitChar '\t' line
    if fields.length < 8 then st
    else
      match parse_variant_line fields with
      | none => st
      | some v => appendVariantRecords st v

/-- The body of `parse_vcf` after line normalisation. -/
def parseVcfLines (lines : List String) : ParseState :=
  lines.foldl processLine {}

/-- `parse_vcf` on text input (bytes input differs only in the decode
step, which never fails thanks to the replacement policy). -/
def parse_vcf (file_content : String) : ParseResult :=
  let st := parseVcfLines (pySplitlines file_content)
  { variants := st.variants, sample_ids := st.sample_ids,
    total_variants := st.variants.length, meta_info := st.meta_info }

/-! ## Risk engine (backend/app/pharma_engine.py) -/

/-- `_RISK_ORDER` (keys are the `str`-enum values). -/
def RISK_ORDER : List (String × Nat) :=
  [("NORMAL", 0), ("MODERATE", 1), ("HIGH", 2), ("CRITICAL", 3)]

/-- `_RISK_ORDER[x]`.  The source indexes the dict directly; a missing
key (`KeyError`) is unreachable because every `risk_level` passed here
went through the validating `RiskLevel(...)` constructor, so the `getD`
default is never exercised. -/
def risk_order (s : String) : Nat :=
  dictGetD RISK_ORDER s 0

/-- `_RISK_LABEL_MAP`. -/
def RISK_LABEL_MAP : List (String × String) :=
  [("NORMAL", "Safe"), ("MODERATE", "Adjust Dosage"),
   ("HIGH", "Toxic"), ("CRITICAL", "Critical Risk")]

/-- `_SEVERITY_MAP`. -/
def SEVERITY_MAP : List (String × String) :=
  [("NORMAL", "none"), ("MODERATE", "moderate"),
   ("HIGH", "high"), ("CRITICAL", "critical")]

/-- `_CONFIDENCE_MAP`. -/
def CONFIDENCE_MAP : List (String × ℚ) :=
  [("NORMAL", 0.95), ("MODERATE", 0.85), ("HIGH", 0.80), ("CRITICAL", 0.90)]

/-- The `RiskLevel(...)` constructor of the `str`-enum: validates the
value, raising `ValueError` on anything but the four members. -/
def mk_risk_level (s : String) : Except PyExc String :=
  if s = "NORMAL" || s = "MODERATE" || s = "HIGH" || s = "CRITICAL" then
    .ok s
  else .error .valueError

/-- Python list indexing `l[i]` including negative indices;
`IndexError` when `i` is out of `[-len, len)`. -/
def pyIndex {α : Type} (l : List α) (i : Int) : Except PyExc α :=
  if 0 ≤ i then
    match l.get? i.toNat with
    | some a => .ok a
    | none => .error .indexError
  else
    match l.get? (i + l.length).toNat with
    | some a => if i + l.length < 0 then .error .indexError else .ok a
    | none => .error .indexError

/-- The `for idx_str in alleles_idx` counting loop of
`_classify_genotype`.  Only `ValueError` (non-integer index) is caught;
an `IndexError` from `allele_list[idx]` propagates. -/
def riskCountLoop (allele_list : List String) (risk_allele : String) :
    Nat → List String → Except PyExc Nat
  | cnt, [] => .ok cnt
  | cnt, idx_str :: rest =>
    if idx_str = "." then riskCountLoop allele_list risk_allele cnt rest
    else
      match pyInt idx_str with
      | none => riskCountLoop allele_list risk_allele cnt rest
      | some idx =>
        if idx < (allele_list.length : Int) then
          match pyIndex allele_list idx with
          | .error e => .error e
          | .ok a =>
            riskCountLoop allele_list risk_allele
              (if pyUpper a = pyUpper risk_allele then cnt + 1 else cnt) rest
        else riskCountLoop allele_list risk_allele cnt rest

/-- `_classify_genotype`. -/
def classify_genotype (variant : Variant) (risk_allele : String)
    (_normal_allele : String) : Except PyExc String :=
  match variant.genotype with
  | none =>
    if pyUpper variant.alt = pyUpper risk_allele then .ok "0/1" else .ok "0/0"
  | some gt =>
    if gt = "" then
      if pyUpper variant.alt = pyUpper risk_allele then .ok "0/1" else .ok "0/0"
    else
      let alleles_idx := pySplitChar '/' (pyReplace "|" "/" gt)
      let allele_list := variant.ref :: pySplitChar ',' variant.alt
      match riskCountLoop allele_list risk_allele 0 alleles_idx with
      | .error e => .error e
      | .ok risk_count =>
        if risk_count = 0 then .ok "0/0"
        else if risk_count = 1 then .ok "0/1"
        else .ok "1/1"

/-- The `variant_map` construction shared by `analyze_variants` and
`convert_to_required_schema`: `if v.rsid:` skips both a missing and an
empty identifier; duplicates are last-write-wins. -/
def buildVariantMapGo (m : List (String × Variant)) :
    List Variant → List (String × Variant)
  | [] => m
  | v :: vs =>
    buildVariantMapGo
      (match v.rsid with
       | some r => if r = "" then m else dictSet m r v
       | none => m) vs

def build_variant_map (variants : List Variant) : List (String × Variant) :=
  buildVariantMapGo [] variants

/-- Evaluation of one interaction inside `analyze_variants`: genotype
classification (or the "0/0" default when the patient lacks the
variant), phenotype lookup with "0/0" fallback, and construction of the
`DrugRiskResult`. -/
def eval_interaction (vmap : List (String × Variant)) (displayName : String)
    (inter : Interaction) : Except PyExc DrugRiskResult :=
  let patient_variant := assocFind vmap inter.rsid
  let genotype_key : Except PyExc String :=
    match patient_variant with
    | none => .ok "0/0"
    | some v => classify_genotype v inter.risk_allele (inter.normal_allele.getD "")
  match genotype_key with
  | .error e => .error e
  | .ok gkey =>
    let pheno_data :=
      match assocFind inter.phenotypes gkey with
      | some pd => pd
      | none =>
        match assocFind inter.phenotypes "0/0" with
        | some pd => pd
        | none => emptyPheno
    match mk_risk_level (pheno_data.level.getD "NORMAL") with
    | .error e => .error e
    | .ok risk_level =>
      .ok { drug_name := displayName, gene := inter.gene,
            variant := patient_variant.map (fun v => v.ref ++ ">" ++ v.alt),
            rsid := some inter.rsid,
            genotype :=
              match patient_variant with
              | some v => v.genotype
              | none => none,
            risk_level := risk_level,
            phenotype := pheno_data.phenotype.getD "Unknown",
            recommendation :=
              pheno_data.recommendation.getD "No recommendation available.",
            evidence_sources := inter.evidence }

/-- The `for interaction in drug_info["interactions"]` loop, collecting
each interaction's result in order (an exception aborts the call). -/
def eval_interactions_loop (vmap : List (String × Variant))
    (displayName : String) :
    List Interaction → Except PyExc (List DrugRiskResult)
  | [] => .ok []
  | inter :: rest =>
    match eval_interaction vmap displayName inter with
    | .error e => .error e
    | .ok r =>
      match eval_interactions_loop vmap displayName rest with
      | .error e => .error e
      | .ok rs => .ok (r :: rs)

/-- The worst-case selection fold: a later result replaces the kept one
only when its risk tier is strictly greater. -/
def worst_fold (w : Option DrugRiskResult) :
    List DrugRiskResult → Option DrugRiskResult
  | [] => w
  | r :: rs =>
    worst_fold
      (match w with
       | none => some r
       | some w' =>
         if risk_order r.risk_level > risk_order w'.risk_level then some r
         else some w') rs

/-- Per-drug body of `analyze_variants`: unknown drug keys yield the
default "no data" result; known keys evaluate every interaction and
keep the worst case (or a gene-"N/A" default when there are none). -/
def analyze_one_drug (db : DB) (vmap : List (String × Variant))
    (drug_name : String) : Except PyExc AnalysisResult :=
  let drug_key := pyStrip (pyLower drug_name)
  match assocFind db drug_key with
  | none =>
    .ok { drug_risk :=
            { drug_name := drug_name, gene := "N/A",
              recommendation :=
                "No pharmacogenomic data available for '" ++ drug_name ++ "'." } }
  | some drug_info =>
    match eval_interactions_loop vmap drug_info.name drug_info.interactions with
    | .error e => .error e
    | .ok rs =>
      .ok { drug_risk :=
              (worst_fold none rs).getD
                { drug_name := drug_info.name, gene := "N/A" } }

/-- The `for drug_name in drug_names` loop of `analyze_variants`. -/
def analyze_variants_loop (db : DB) (vmap : List (String × Variant)) :
    List String → Except PyExc (List AnalysisResult)
  | [] => .ok []
  | d :: ds =>
    match analyze_one_drug db vmap d with
    | .error e => .error e
    | .ok r =>
      match analyze_variants_loop db vmap ds with
      | .error e => .error e
      | .ok rs => .ok (r :: rs)

/-- `analyze_variants` (the knowledge base is passed explicitly; the
source reads it from the module-level lazy cache). -/
def analyze_variants (db : DB) (variants : List Variant)
    (drug_names : List String) : Except PyExc (List AnalysisResult) :=
  analyze_variants_loop db (build_variant_map variants) drug_names

/-! ## Schema renderer (convert_to_required_schema and helpers) -/

/-- `_is_pharmacogenomic_rsid`: membership of an rsID anywhere in the
knowledge base. -/
def is_pharmacogenomic_rsid (db : DB) (rsid : String) : Bool :=
  db.any (fun kv => kv.2.interactions.any (fun inter => inter.rsid = rsid))

/-- `_abbreviate_phenotype`: keyword-precedence mapping of a phenotype
description to a short code. -/
def abbreviate_phenotype (phenotype : String) : String :=
  let p := pyLower phenotype
  if containsSub "ultra" p && containsSub "rapid" p then "URM"
  else if containsSub "rapid" p && containsSub "metabolizer" p then "RM"
  else if containsSub "poor" p || containsSub "deficien" p then "PM"
  else if containsSub "intermediate" p then "IM"
  else if containsSub "normal" p then "NM"
  else if containsSub "non-expressor" p then "NM"
  else if containsSub "expressor" p then
    (if containsSub "intermediate" p then "IM" else "RM")
  else if containsSub "negative" p then "NM"
  else if containsSub "carrier" p || containsSub "homozygous" p then "PM"
  else "Unknown"

/-- Match of the regex `\(\*\d+/\*\d+\w?\)` at the head of the input
(the pattern is deterministic: each greedy piece is followed by a
character it cannot match). -/
def diploMatchAt : List Char → Option (List Char)
  | '(' :: '*' :: rest =>
    match takeDigRun rest with
    | none => none
    | some rest1 =>
      let d1 := rest.take (rest.length - rest1.length)
      match rest1 with
      | '/' :: '*' :: rest2 =>
        match takeDigRun rest2 with
        | none => none
        | some rest3 =>
          let d2 := rest2.take (rest2.length - rest3.length)
          match rest3 with
          | ')' :: _ => some ('(' :: '*' :: d1 ++ '/' :: '*' :: d2 ++ [')'])
          | w :: ')' :: _ =>
            if isWordCharPy w then
              some ('(' :: '*' :: d1 ++ '/' :: '*' :: d2 ++ [w, ')'])
            else none
          | _ => none
      | _ => none
  | _ => none

/-- `re.search` for the diplotype pattern: leftmost match. -/
def diploSearch : List Char → Option (List Char)
  | [] => none
  | c :: cs =>
    match diploMatchAt (c :: cs) with
    | some m => some m
    | none => diploSearch cs

/-- `_extract_diplotype`: a parenthesised `*N/*M` pattern verbatim
(parens stripped), else keyword inference. -/
def extract_diplotype (phenotype : String) : String :=
  match diploSearch phenotype.toList with
  | some m => String.mk (stripChars (fun c => c = '(' || c = ')') m)
  | none =>
    let p := pyLower phenotype
    if containsSub "poor" p || containsSub "deficien" p then "*2/*2"
    else if containsSub "intermediate" p then "*1/*2"
    else "*1/*1"

/-- Case-insensitive literal match: returns the actually matched input
characters and the rest. -/
def ciPrefix : List Char → List Char → Option (List Char × List Char)
  | [], cs => some ([], cs)
  | _ :: _, [] => none
  | p :: ps, c :: cs =>
    if c.toLower = p.toLower then
      (ciPrefix ps cs).map (fun r => (c :: r.1, r.2))
    else none

/-- Match of `\d+[-–]\d+%\s*(?:dose reduction|lower|higher)` (flag
IGNORECASE) at the head of the input. -/
def dosage1MatchAt (cs : List Char) : Option (List Char) :=
  match takeDigRun cs with
  | none => none
  | some r1 =>
    let d1 := cs.take (cs.length - r1.length)
    match r1 with
    | dash :: r2 =>
      if dash = '-' || dash = '–' then
        match takeDigRun r2 with
        | none => none
        | some r3 =>
          let d2 := r2.take (r2.length - r3.length)
          match r3 with
          | '%' :: r4 =>
            let sp := r4.takeWhile isPySpace
            let r5 := r4.dropWhile isPySpace
            match ciPrefix "dose reduction".toList r5 with
            | some m => some (d1 ++ dash :: d2 ++ '%' :: sp ++ m.1)
            | none =>
              match ciPrefix "lower".toList r5 with
              | some m => some (d1 ++ dash :: d2 ++ '%' :: sp ++ m.1)
              | none =>
                match ciPrefix "higher".toList r5 with
                | some m => some (d1 ++ dash :: d2 ++ '%' :: sp ++ m.1)
                | none => none
          | _ => none
      else none
    | [] => none

def dosage1Search : List Char → Option (List Char)
  | [] => none
  | c :: cs =>
    match dosage1MatchAt (c :: cs) with
    | some m => some m
    | none => dosage1Search cs

/-- Match of `[Rr]educe dose\s+by\s+[\d\-–%\s]+` (case-sensitive) at
the head of the input. -/
def dosage2MatchAt : List Char → Option (List Char)
  | [] => none
  | c :: rest =>
    if c = 'R' || c = 'r' then
      if "educe dose".toList.isPrefixOf rest then
        let rest1 := rest.drop "educe dose".toList.length
        let ws1 := rest1.takeWhile isPySpace
        let rest2 := rest1.dropWhile isPySpace
        if ws1.isEmpty then none
        else if "by".toList.isPrefixOf rest2 then
          let rest3 := rest2.drop 2
          let ws2 := rest3.takeWhile isPySpace
          let rest4 := rest3.dropWhile isPySpace
          if ws2.isEmpty then none
          else
            let cls := rest4.takeWhile
              (fun c => c.isDigit || c = '-' || c = '–' || c = '%' || isPySpace c)
            if cls.isEmpty then none
            else
              some (c :: "educe dose".toList ++ ws1 ++ "by".toList ++ ws2 ++ cls)
        else none
      else none
    else none

def dosage2Search : List Char → Option (List Char)
  | [] => none
  | c :: cs =>
    match dosage2MatchAt (c :: cs) with
    | some m => some m
    | none => dosage2Search cs

/-- `_extract_dosage_adjustment`. -/
def extract_dosage_adjustment (recommendation : String) : Option String :=
  match dosage1Search recommendation.toList with
  | some m => some (String.mk m)
  | none =>
    if containsSub "reduce dose" (pyLower recommendation) then
      (dosage2Search recommendation.toList).map String.mk
    else none

/-- `_extract_alternatives`. -/
def extract_alternatives (recommendation : String) : List String :=
  let low := pyLower recommendation
  let keywords := ["prasugrel", "ticagrelor", "pravastatin", "rosuvastatin"]
  let alternatives :=
    (keywords.filter (fun d => containsSub d low)).map pyCapitalize
  if containsSub "alternative" low && alternatives.isEmpty then
    ["Consult prescriber for alternatives"]
  else alternatives

/-- `_extract_monitoring`. -/
def extract_monitoring (recommendation : String) : Option String :=
  let rec_lower := pyLower recommendation
  if containsSub "monitor" rec_lower then
    if containsSub "inr" rec_lower then some "Monitor INR closely"
    else if containsSub "cbc" rec_lower then some "Monitor CBC weekly"
    else if containsSub "trough" rec_lower then some "Monitor trough levels"
    else some "Close clinical monitoring required"
  else none

/-- The renderer's drug-key normalisation:
`dr.drug_name.lower().replace(" ", "").replace("(5-fu)", "")`. -/
def renderDrugKey (drug_name : String) : String :=
  pyReplace "(5-fu)" "" (pyReplace " " "" (pyLower drug_name))

/-- Rendering of one internal result inside `convert_to_required_schema`. -/
def convert_one (db : DB) (vmap : List (String × Variant))
    (total_variants pgx_variants_found : Nat)
    (sample_id timestamp : String) (result : AnalysisResult) :
    PharmaGuardResult :=
  let dr := result.drug_risk
  let drug_key := renderDrugKey dr.drug_name
  let detected : List DetectedVariant :=
    match assocFind db drug_key with
    | none => []
    | some drug_info =>
      drug_info.interactions.filterMap (fun inter =>
        (assocFind vmap inter.rsid).map (fun pv =>
          { rsid := inter.rsid, gene := inter.gene,
            allele_change := some (pv.ref ++ ">" ++ pv.alt),
            genotype := pv.genotype, quality := pv.quality,
            filter_status := pv.filter_status }))
  let diplotype := extract_diplotype dr.phenotype
  { patient_id := sample_id, drug := dr.drug_name, timestamp := timestamp,
    risk_assessment :=
      { risk_label := dictGetD RISK_LABEL_MAP dr.risk_level "Safe",
        confidence_score := dictGetD CONFIDENCE_MAP dr.risk_level 0.85,
        severity := dictGetD SEVERITY_MAP dr.risk_level "none" },
    pharmacogenomic_profile :=
      { primary_gene := dr.gene, diplotype := diplotype,
        phenotype := abbreviate_phenotype dr.phenotype,
        detected_variants := detected },
    clinical_recommendation :=
      { action := dr.recommendation,
        dosage_adjustment := extract_dosage_adjustment dr.recommendation,
        alternative_drugs := extract_alternatives dr.recommendation,
        monitoring := extract_monitoring dr.recommendation,
        evidence_sources := dr.evidence_sources },
    llm_generated_explanation := result.llm_explanation,
    quality_metrics :=
      { vcf_parsing_success := true,
        total_variants_parsed := total_variants,
        pharmacogenomic_variants_found := pgx_variants_found,
        analysis_confidence := dictGetD CONFIDENCE_MAP dr.risk_level 0.85,
        gene_coverage := if !detected.isEmpty then 1.0 else 0.0 } }

/-- `convert_to_required_schema` (knowledge base and wall-clock
timestamp passed explicitly). -/
def convert_to_required_schema (db : DB) (results : List AnalysisResult)
    (variants : List Variant) (sample_id timestamp : String) :
    List PharmaGuardResult :=
  let vmap := build_variant_map variants
  let total_variants := variants.length
  let pgx_variants_found :=
    (variants.filter (fun v =>
      match v.rsid with
      | some r => r ≠ "" && is_pharmacogenomic_rsid db r
      | none => false)).length
  results.map
    (convert_one db vmap total_variants pgx_variants_found sample_id timestamp)

/-! ## Specification-side vocabulary used by the claim statements -/

/-- The claim's zygosity bucketing of a risk-allele count. -/
def genotypeBucket (n : Nat) : String :=
  if n = 0 then "0/0" else if n = 1 then "0/1" else "1/1"

/-- The genotype string split on the phase separators "/" and "|". -/
def alleleIndexStrings (gt : String) : List String :=
  pySplitChar '/' (pyReplace "|" "/" gt)

/-- The candidate allele list `[reference] + alternate alleles`. -/
def alleleCandidates (v : Variant) : List String :=
  v.ref :: pySplitChar ',' v.alt

/-- An index token whose parsed value is below `-len`, i.e. one whose
Python list access raises `IndexError`. -/
def idxRaises (len : Nat) (s : String) : Bool :=
  match pyInt s with
  | some n => n < -(len : Int)
  | none => false

/-- An index token that contributes one to the risk-allele count:
non-missing, integer, below the list length, and resolving (with
Python's negative indexing) to an allele matching the risk allele
case-insensitively. -/
def idxMatches (alleles : List String) (risk_allele : String) (s : String) :
    Bool :=
  if s = "." then false
  else
    match pyInt s with
    | none => false
    | some n =>
      if n < (alleles.length : Int) then
        match pyIndex alleles n with
        | .ok a => pyUpper a = pyUpper risk_allele
        | .error _ => false
      else false

/-! ## Claim C10: the VCF-parsing-success flag is the constant True -/

/-- C10.  For every call to `convert_to_required_schema`, regardless of
the knowledge base, internal results, variants, sample id or timestamp
supplied, every output record's `quality_metrics.vcf_parsing_success`
field is `true`: the flag is a constant, never derived from the input. -/
theorem C10_vcf_parsing_success_constant
    (db : DB) (results : List AnalysisResult) (variants : List Variant)
    (sample_id timestamp : String) (out : PharmaGuardResult)
    (hmem : out ∈ convert_to_required_schema db results variants sample_id timestamp) :
    out.quality_metrics.vcf_parsing_success = true := by
  simp only [convert_to_required_schema, List.mem_map] at hmem
  obtain ⟨r, _, rfl⟩ := hmem
  rfl

/-- Witness for C10 at a concrete call. -/
theorem C10_witness :
    ∃ out ∈ convert_to_required_schema []
        [{ drug_risk := { drug_name := "aspirin", gene := "N/A" } }] [] "P1" "TS",
      out.quality_metrics.vcf_parsing_success = true := by
  refine ⟨convert_one [] [] 0 0 "P1" "TS"
      { drug_risk := { drug_name := "aspirin", gene := "N/A" } }, ?_, ?_⟩
  · exact List.mem_cons_self _ _
  · exact C10_vcf_parsing_success_constant []
      [{ drug_risk := { drug_name := "aspirin", gene := "N/A" } }] [] "P1" "TS" _
      (List.mem_cons_self _ _)

/-! ## Claim C8: the risk_assessment block as a function of the tier

The per-tier tables hold exactly as claimed, but the claim's final
clause fails: an unrecognized tier falls back to the `.get` defaults
`("Safe", 0.85, "none")`, whose confidence is the MODERATE constant
0.85, not the NORMAL row's 0.95. -/

/-- C8 counterexample.  Rendering an internal result whose tier is the
unrecognized string "MYSTERY" yields confidence 0.85, while the NORMAL
row's confidence is 0.95 — so an unrecognized tier does not yield the
NORMAL row's values, refuting the claim's final clause. -/
theorem C8_counterexample :
    (convert_to_required_schema []
        [{ drug_risk := { drug_name := "X", gene := "G", risk_level := "MYSTERY" } }]
        [] "P1" "TS").map (fun o => o.risk_assessment) =
      [{ risk_label := "Safe", confidence_score := 0.85, severity := "none" }] ∧
    dictGetD CONFIDENCE_MAP "NORMAL" 0.85 = 0.95 ∧ (0.85 : ℚ) ≠ 0.95 := by
  refine ⟨rfl, rfl, by norm_num⟩

/-- C8 (amended).  Every rendered record's risk_assessment block is a
pure function of the internal result's risk tier, given by the fixed
tables `_RISK_LABEL_MAP`/`_CONFIDENCE_MAP`/`_SEVERITY_MAP`
(NORMAL ↦ ("Safe", 0.95, "none"), MODERATE ↦ ("Adjust Dosage", 0.85,
"moderate"), HIGH ↦ ("Toxic", 0.80, "high"), CRITICAL ↦
("Critical Risk", 0.90, "critical")); an unrecognized tier yields the
`.get` fallback ("Safe", 0.85, "none"), which agrees with the NORMAL
row on label and severity but has confidence 0.85, not 0.95. -/
theorem C8_risk_assessment_tables
    (db : DB) (results : List AnalysisResult) (variants : List Variant)
    (sample_id timestamp : String) (i : Nat) (result : AnalysisResult)
    (hres : results.get? i = some result) :
    ∃ out, (convert_to_required_schema db results variants sample_id timestamp).get? i
        = some out ∧
      out.risk_assessment =
        { risk_label := dictGetD RISK_LABEL_MAP result.drug_risk.risk_level "Safe",
          confidence_score := dictGetD CONFIDENCE_MAP result.drug_risk.risk_level 0.85,
          severity := dictGetD SEVERITY_MAP result.drug_risk.risk_level "none" } ∧
      (result.drug_risk.risk_level = "NORMAL" →
        out.risk_assessment = { risk_label := "Safe", confidence_score := 0.95, severity := "none" }) ∧
      (result.drug_risk.risk_level = "MODERATE" →
        out.risk_assessment = { risk_label := "Adjust Dosage", confidence_score := 0.85, severity := "moderate" }) ∧
      (result.drug_risk.risk_level = "HIGH" →
        out.risk_assessment = { risk_label := "Toxic", confidence_score := 0.80, severity := "high" }) ∧
      (result.drug_risk.risk_level = "CRITICAL" →
        out.risk_assessment = { risk_label := "Critical Risk", confidence_score := 0.90, severity := "critical" }) ∧
      (result.drug_risk.risk_level ≠ "NORMAL" ∧ result.drug_risk.risk_level ≠ "MODERATE" ∧
       result.drug_risk.risk_level ≠ "HIGH" ∧ result.drug_risk.risk_level ≠ "CRITICAL" →
        out.risk_assessment = { risk_label := "Safe", confidence_score := 0.85, severity := "none" }) := by
  refine ⟨convert_one db (build_variant_map variants) variants.length
      ((variants.filter (fun v =>
        match v.rsid with
        | some r => r ≠ "" && is_pharmacogenomic_rsid db r
        | none => false)).length) sample_id timestamp result, ?_, rfl, ?_, ?_, ?_, ?_, ?_⟩
  · simp only [convert_to_required_schema, List.get?_map, hres, Option.map_some']
  · intro h
    simp [convert_one, h, dictGetD, assocFind, RISK_LABEL_MAP, CONFIDENCE_MAP, SEVERITY_MAP]
  · intro h
    simp [convert_one, h, dictGetD, assocFind, RISK_LABEL_MAP, CONFIDENCE_MAP, SEVERITY_MAP]
  · intro h
    simp [convert_one, h, dictGetD, assocFind, RISK_LABEL_MAP, CONFIDENCE_MAP, SEVERITY_MAP]
  · intro h
    simp [convert_one, h, dictGetD, assocFind, RISK_LABEL_MAP, CONFIDENCE_MAP, SEVERITY_MAP]
  · rintro ⟨h1, h2, h3, h4⟩
    simp [convert_one, dictGetD, assocFind, RISK_LABEL_MAP, CONFIDENCE_MAP, SEVERITY_MAP,
      Ne.symm h1, Ne.symm h2, Ne.symm h3, Ne.symm h4]

/-- Witness for C8's amended theorem at a concrete rendering. -/
theorem C8_witness :
    ∃ out, (convert_to_required_schema []
        [{ drug_risk := { drug_name := "X", gene := "G", risk_level := "HIGH" } }]
        [] "P1" "TS").get? 0 = some out ∧
      out.risk_assessment =
        { risk_label := dictGetD RISK_LABEL_MAP "HIGH" "Safe",
          confidence_score := dictGetD CONFIDENCE_MAP "HIGH" 0.85,
          severity := dictGetD SEVERITY_MAP "HIGH" "none" } := by
  obtain ⟨out, h1, h2, _⟩ := C8_risk_assessment_tables []
    [{ drug_risk := { drug_name := "X", gene := "G", risk_level := "HIGH" } }]
    [] "P1" "TS" 0 _ rfl
  exact ⟨out, h1, h2⟩

/-! ## Claim C7: the absent-genotype fallback of `_classify_genotype` -/

/-- C7.  For every variant whose genotype string is absent,
`_classify_genotype` returns "0/1" when the variant's alternate allele
equals the risk allele case-insensitively and "0/0" otherwise; in this
fallback it never returns "1/1", and its result is always one of
"0/0", "0/1", "1/1". -/
theorem C7_absent_genotype_fallback
    (v : Variant) (risk_allele normal_allele : String)
    (hgt : v.genotype = none) :
    classify_genotype v risk_allele normal_allele =
      .ok (if pyUpper v.alt = pyUpper risk_allele then "0/1" else "0/0") ∧
    classify_genotype v risk_allele normal_allele ≠ .ok "1/1" ∧
    ∃ g, classify_genotype v risk_allele normal_allele = .ok g ∧
      (g = "0/0" ∨ g = "0/1" ∨ g = "1/1") := by
  have h1 : classify_genotype v risk_allele normal_allele =
      .ok (if pyUpper v.alt = pyUpper risk_allele then "0/1" else "0/0") := by
    simp only [classify_genotype, hgt]
    split <;> simp_all
  refine ⟨h1, ?_, ?_⟩
  · rw [h1]
    split <;> simp
  · refine ⟨if pyUpper v.alt = pyUpper risk_allele then "0/1" else "0/0", h1, ?_⟩
    split <;> simp

/-- Witness for C7 at a concrete variant with no called genotype. -/
theorem C7_witness :
    classify_genotype
        { chrom := "chr1", pos := 100, rsid := some "rs1", ref := "C", alt := "T" }
        "T" "" =
      .ok (if pyUpper "T" = pyUpper "T" then "0/1" else "0/0") := by
  have h := C7_absent_genotype_fallback
    { chrom := "chr1", pos := 100, rsid := some "rs1", ref := "C", alt := "T" }
    "T" "" rfl
  exact h.1

/-! ## Claim C2: `_classify_genotype` with a genotype string present

The claim fails on the code in two ways, both caused by Python's
negative indexing: a parsed index in `[-len, -1]` passes the
`idx < len(allele_list)` guard and resolves to an allele counted from
the end (so it can contribute to the risk count), and a parsed index
below `-len` makes `allele_list[idx]` raise an `IndexError` that the
`except ValueError` clause does not catch. -/

/-- Case split for Python list indexing below the length bound. -/
theorem pyIndex_below_length {α : Type} (l : List α) (n : Int)
    (hlt : n < (l.length : Int)) :
    (n < -(l.length : Int) ∧ pyIndex l n = .error .indexError) ∨
    (-(l.length : Int) ≤ n ∧ ∃ a, pyIndex l n = .ok a) := by
  by_cases hpos : 0 ≤ n
  · right
    refine ⟨by omega, ?_⟩
    have hn : n.toNat < l.length := by omega
    refine ⟨l.get ⟨n.toNat, hn⟩, ?_⟩
    simp only [pyIndex, if_pos hpos]
    rw [show l.get? n.toNat = some (l.get ⟨n.toNat, hn⟩) from List.get?_eq_get hn]
  · by_cases hj : 0 ≤ n + l.length
    · right
      refine ⟨by omega, ?_⟩
      have hn : (n + l.length).toNat < l.length := by omega
      refine ⟨l.get ⟨(n + l.length).toNat, hn⟩, ?_⟩
      have hneg : ¬ n + (l.length : Int) < 0 := by omega
      simp only [pyIndex, if_neg hpos]
      rw [show l.get? (n + l.length).toNat =
        some (l.get ⟨(n + l.length).toNat, hn⟩) from List.get?_eq_get hn]
      simp [hneg]
    · left
      refine ⟨by omega, ?_⟩
      cases l with
      | nil =>
        simp [pyIndex, hpos]
      | cons a l' =>
        have hneg : n + ((a :: l').length : Int) < 0 := by omega
        simp only [pyIndex, if_neg hpos]
        rw [show ((n + ((a :: l').length : Int)).toNat) = 0 by omega]
        simp only [List.get?]
        rw [if_pos hneg]

/-- Behaviour of the `_classify_genotype` counting loop: the presence
of any index below `-len` raises `IndexError`; otherwise the loop adds
the number of matching index tokens to the accumulator. -/
theorem riskCountLoop_spec (alleles : List String) (risk : String) :
    ∀ (idxs : List String) (cnt : Nat),
      ((∃ s ∈ idxs, idxRaises alleles.length s = true) →
        riskCountLoop alleles risk cnt idxs = .error .indexError) ∧
      ((∀ s ∈ idxs, idxRaises alleles.length s = false) →
        riskCountLoop alleles risk cnt idxs =
          .ok (cnt + idxs.countP (idxMatches alleles risk))) := by
  intro idxs
  induction idxs with
  | nil =>
    intro cnt
    constructor
    · rintro ⟨s, hs, _⟩
      exact absurd hs (List.not_mem_nil s)
    · intro _
      simp [riskCountLoop]
  | cons s rest ih =>
    intro cnt
    by_cases hdot : s = "."
    · subst hdot
      have hraise : idxRaises alleles.length "." = false := by
        simp [idxRaises, show pyInt "." = none from rfl]
      have hmatch : idxMatches alleles risk "." = false := by
        simp [idxMatches]
      constructor
      · rintro ⟨t, ht, hrt⟩
        rcases List.mem_cons.mp ht with rfl | htr
        · rw [hraise] at hrt
          exact absurd hrt (by simp)
        · simp only [riskCountLoop, if_pos rfl]
          exact (ih cnt).1 ⟨t, htr, hrt⟩
      · intro hall
        simp only [riskCountLoop, if_pos rfl]
        rw [(ih cnt).2 (fun t ht => hall t (List.mem_cons_of_mem _ ht))]
        simp [List.countP_cons, hmatch]
    · cases hpi : pyInt s with
      | none =>
        have hraise : idxRaises alleles.length s = false := by
          simp [idxRaises, hpi]
        have hmatch : idxMatches alleles risk s = false := by
          simp [idxMatches, hdot, hpi]
        constructor
        · rintro ⟨t, ht, hrt⟩
          rcases List.mem_cons.mp ht with rfl | htr
          · rw [hraise] at hrt
            exact absurd hrt (by simp)
          · simp only [riskCountLoop, if_neg hdot, hpi]
            exact (ih cnt).1 ⟨t, htr, hrt⟩
        · intro hall
          simp only [riskCountLoop, if_neg hdot, hpi]
          rw [(ih cnt).2 (fun t ht => hall t (List.mem_cons_of_mem _ ht))]
          simp [List.countP_cons, hmatch]
      | some n =>
        by_cases hlt : n < (alleles.length : Int)
        · rcases pyIndex_below_length alleles n hlt with ⟨hblw, herr⟩ | ⟨habv, a, hok⟩
          · have hraise : idxRaises alleles.length s = true := by
              simp [idxRaises, hpi, hblw]
            constructor
            · intro _
              simp only [riskCountLoop, if_neg hdot, hpi, if_pos hlt, herr]
            · intro hall
              have := hall s (List.mem_cons_self s rest)
              rw [hraise] at this
              exact absurd this (by simp)
          · have hraise : idxRaises alleles.length s = false := by
              simp [idxRaises, hpi]
              omega
            have hmatch : idxMatches alleles risk s =
                (decide (pyUpper a = pyUpper risk)) := by
              simp [idxMatches, hdot, hpi, if_pos hlt, hok]
            constructor
            · rintro ⟨t, ht, hrt⟩
              rcases List.mem_cons.mp ht with rfl | htr
              · rw [hraise] at hrt
                exact absurd hrt (by simp)
              · simp only [riskCountLoop, if_neg hdot, hpi, if_pos hlt, hok]
                exact (ih _).1 ⟨t, htr, hrt⟩
            · intro hall
              simp only [riskCountLoop, if_neg hdot, hpi, if_pos hlt, hok]
              rw [(ih _).2 (fun t ht => hall t (List.mem_cons_of_mem _ ht))]
              rw [List.countP_cons, hmatch]
              by_cases hm : pyUpper a = pyUpper risk
              · have hd : decide (pyUpper a = pyUpper risk) = true := by
                  simp [hm]
                rw [if_pos hm, hd, if_pos rfl]
                congr 1
                omega
              · have hd : decide (pyUpper a = pyUpper risk) = false := by
                  simp [hm]
                rw [if_neg hm, hd]
                simp
        · have hraise : idxRaises alleles.length s = false := by
            simp [idxRaises, hpi]
            omega
          have hmatch : idxMatches alleles risk s = false := by
            simp [idxMatches, hdot, hpi, hlt]
          constructor
          · rintro ⟨t, ht, hrt⟩
            rcases List.mem_cons.mp ht with rfl | htr
            · rw [hraise] at hrt
              exact absurd hrt (by simp)
            · simp only [riskCountLoop, if_neg hdot, hpi, if_neg hlt]
              exact (ih cnt).1 ⟨t, htr, hrt⟩
          · intro hall
            simp only [riskCountLoop, if_neg hdot, hpi, if_neg hlt]
            rw [(ih cnt).2 (fun t ht => hall t (List.mem_cons_of_mem _ ht))]
            simp [List.countP_cons, hmatch]

/-- C2 counterexample.  The claim says a malformed (out-of-range) index
contributes zero and never causes an exception; but on the variant with
genotype "-5" (ref "A", alt "T", risk allele "T") the code raises an
uncaught IndexError, and on the genotype pairing two "-1" indices the
negative indices resolve (Python-style) to the last allele and are
counted, giving "1/1" where the claim demands "0/0". -/
theorem C2_counterexample :
    classify_genotype
        { chrom := "1", pos := 1, rsid := some "rs1", ref := "A", alt := "T",
          genotype := some "-5" } "T" "" = .error .indexError ∧
    classify_genotype
        { chrom := "1", pos := 1, rsid := some "rs1", ref := "A", alt := "T",
          genotype := some "-1/-1" } "T" "" = .ok "1/1" := by
  constructor <;> rfl

/-- C2 (amended).  For every variant whose genotype string is present
(and non-empty), `_classify_genotype` splits the string on "/" or "|"
and resolves each non-missing parsed index against
`[reference] + alternate alleles` with Python list-indexing semantics:
a non-integer token contributes zero; a parsed index `≥ len` contributes
zero; a parsed index in `[-len, len)` resolves (negative values counting
from the end) and contributes one exactly when the resolved allele
equals the risk allele case-insensitively; if any token parses to an
index below `-len` the function raises an uncaught IndexError;
otherwise it returns "0/0"/"0/1"/"1/1" for zero/one/two-or-more
matches. -/
theorem C2_genotype_present_amended
    (v : Variant) (risk_allele normal_allele gt : String)
    (hgt : v.genotype = some gt) (hne : gt ≠ "") :
    ((∃ s ∈ alleleIndexStrings gt,
        idxRaises (alleleCandidates v).length s = true) →
      classify_genotype v risk_allele normal_allele = .error .indexError) ∧
    ((∀ s ∈ alleleIndexStrings gt,
        idxRaises (alleleCandidates v).length s = false) →
      classify_genotype v risk_allele normal_allele =
        .ok (genotypeBucket
          ((alleleIndexStrings gt).countP
            (idxMatches (alleleCandidates v) risk_allele)))) := by
  have hspec := riskCountLoop_spec (alleleCandidates v) risk_allele
    (alleleIndexStrings gt) 0
  have hfold1 : v.ref :: pySplitChar ',' v.alt = alleleCandidates v := rfl
  have hfold2 : pySplitChar '/' (pyReplace "|" "/" gt) = alleleIndexStrings gt := rfl
  constructor
  · intro hex
    simp only [classify_genotype, hgt, if_neg hne]
    rw [hfold1, hfold2, hspec.1 hex]
  · intro hall
    simp only [classify_genotype, hgt, if_neg hne]
    rw [hfold1, hfold2, hspec.2 hall]
    simp only [Nat.zero_add, genotypeBucket]
    generalize (alleleIndexStrings gt).countP
      (idxMatches (alleleCandidates v) risk_allele) = c
    by_cases h0 : c = 0
    · rw [if_pos h0, if_pos h0]
    · rw [if_neg h0, if_neg h0]
      by_cases h1 : c = 1
      · rw [if_pos h1, if_pos h1]
      · rw [if_neg h1, if_neg h1]

/-- Witness for C2's amended theorem: the ordinary heterozygous call
"0/1" against ref "C" / alt "T" with risk allele "T" classifies as
"0/1". -/
theorem C2_witness :
    classify_genotype
        { chrom := "chr1", pos := 100, rsid := some "rs1", ref := "C", alt := "T",
          genotype := some "0/1" } "T" "" =
      .ok (genotypeBucket
        ((alleleIndexStrings "0/1").countP
          (idxMatches (alleleCandidates
            { chrom := "chr1", pos := 100, rsid := some "rs1", ref := "C",
              alt := "T", genotype := some "0/1" }) "T"))) ∧
    genotypeBucket
        ((alleleIndexStrings "0/1").countP
          (idxMatches (alleleCandidates
            { chrom := "chr1", pos := 100, rsid := some "rs1", ref := "C",
              alt := "T", genotype := some "0/1" }) "T")) = "0/1" := by
  refine ⟨(C2_genotype_present_amended _ "T" "" "0/1" rfl (by decide)).2 ?_, ?_⟩
  · decide
  · decide

/-! ## Shared lemmas about the engine loops -/

/-- The empty needle is a substring of everything. -/
theorem isSubL_nil (l : List Char) : isSubL [] l = true := by
  induction l with
  | nil => rfl
  | cons c cs ih => simp [isSubL, ih]

/-- A substring of `l` is a substring of `l ++ ext`. -/
theorem isSubL_append_right (pat l ext : List Char)
    (h : isSubL pat l = true) : isSubL pat (l ++ ext) = true := by
  induction l with
  | nil =>
    have : pat = [] := by
      simpa [isSubL, List.isEmpty_iff] using h
    subst this
    exact isSubL_nil ext
  | cons c cs ih =>
    simp only [isSubL, Bool.or_eq_true] at h
    rcases h with hpre | hsub
    · have hp : pat <+: c :: cs := by
        exact (List.isPrefixOf_iff_prefix).mp hpre
      have hp2 : pat <+: (c :: cs) ++ ext := hp.trans (List.prefix_append _ _)
      simp only [List.cons_append, isSubL, Bool.or_eq_true]
      exact Or.inl ((List.isPrefixOf_iff_prefix).mpr hp2)
    · simp only [List.cons_append, isSubL, Bool.or_eq_true]
      exact Or.inr (ih hsub)

/-- The per-drug loop of `analyze_variants`: a successful run returns
one result per requested drug, positionally computed by
`analyze_one_drug`. -/
theorem analyze_variants_loop_ok (db : DB) (vmap : List (String × Variant)) :
    ∀ (ds : List String) (out : List AnalysisResult),
      analyze_variants_loop db vmap ds = .ok out →
      out.length = ds.length ∧
      ∀ i d, ds.get? i = some d →
        ∃ r, analyze_one_drug db vmap d = .ok r ∧ out.get? i = some r := by
  intro ds
  induction ds with
  | nil =>
    intro out hout
    simp only [analyze_variants_loop] at hout
    cases hout
    exact ⟨rfl, by intro i d h; simp at h⟩
  | cons d ds ih =>
    intro out hout
    simp only [analyze_variants_loop] at hout
    cases hone : analyze_one_drug db vmap d with
    | error e => rw [hone] at hout; cases hout
    | ok r =>
      rw [hone] at hout
      cases hrec : analyze_variants_loop db vmap ds with
      | error e => rw [hrec] at hout; cases hout
      | ok rs =>
        rw [hrec] at hout
        cases hout
        obtain ⟨hlen, hpos⟩ := ih rs hrec
        refine ⟨by simp [hlen], ?_⟩
        intro i d' hd'
        cases i with
        | zero =>
          simp only [List.get?] at hd'
          cases hd'
          exact ⟨r, hone, rfl⟩
        | succ k =>
          simp only [List.get?] at hd' ⊢
          exact hpos k d' hd'

/-- The per-interaction loop preserves length on success. -/
theorem eval_interactions_loop_length (vmap : List (String × Variant))
    (displayName : String) :
    ∀ (inters : List Interaction) (rs : List DrugRiskResult),
      eval_interactions_loop vmap displayName inters = .ok rs →
      rs.length = inters.length := by
  intro inters
  induction inters with
  | nil =>
    intro rs h
    simp only [eval_interactions_loop] at h
    cases h
    rfl
  | cons inter rest ih =>
    intro rs h
    simp only [eval_interactions_loop] at h
    cases hone : eval_interaction vmap displayName inter with
    | error e => rw [hone] at h; cases h
    | ok r =>
      rw [hone] at h
      cases hrec : eval_interactions_loop vmap displayName rest with
      | error e => rw [hrec] at h; cases h
      | ok rs' =>
        rw [hrec] at h
        cases h
        simp [ih rs' hrec]

/-- The worst-case fold with accumulator `w` selects the earliest
result of maximal risk order among `w :: rs`. -/
theorem worst_fold_some_spec :
    ∀ (rs : List DrugRiskResult) (w : DrugRiskResult),
      ∃ r i, worst_fold (some w) rs = some r ∧ (w :: rs).get? i = some r ∧
        (∀ j x, j < i → (w :: rs).get? j = some x →
          risk_order x.risk_level < risk_order r.risk_level) ∧
        (∀ x ∈ w :: rs, risk_order x.risk_level ≤ risk_order r.risk_level) := by
  intro rs
  induction rs with
  | nil =>
    intro w
    refine ⟨w, 0, rfl, rfl, ?_, ?_⟩
    · intro j x hj _
      omega
    · intro x hx
      rcases List.mem_singleton.mp hx with rfl
      exact le_refl _
  | cons y rs ih =>
    intro w
    by_cases hgt : risk_order w.risk_level < risk_order y.risk_level
    · obtain ⟨r, i, hfold, hget, hbefore, hall⟩ := ih y
      have hyr : risk_order y.risk_level ≤ risk_order r.risk_level :=
        hall y (List.mem_cons_self _ _)
      refine ⟨r, i + 1, ?_, ?_, ?_, ?_⟩
      · simp only [worst_fold, if_pos hgt]
        exact hfold
      · simpa using hget
      · intro j x hj hx
        cases j with
        | zero =>
          simp only [List.get?] at hx
          cases hx
          exact lt_of_lt_of_le hgt hyr
        | succ k =>
          simp only [List.get?] at hx
          exact hbefore k x (by omega) hx
      · intro x hx
        rcases List.mem_cons.mp hx with rfl | hx'
        · exact le_of_lt (lt_of_lt_of_le hgt hyr)
        · exact hall x hx'
    · obtain ⟨r, i, hfold, hget, hbefore, hall⟩ := ih w
      have hyw : risk_order y.risk_level ≤ risk_order w.risk_level :=
        Nat.le_of_not_lt hgt
      cases i with
      | zero =>
        simp only [List.get?] at hget
        cases hget
        refine ⟨w, 0, ?_, rfl, ?_, ?_⟩
        · simp only [worst_fold, if_neg hgt]
          exact hfold
        · intro j x hj _
          omega
        · intro x hx
          rcases List.mem_cons.mp hx with rfl | hx'
          · exact le_refl _
          · rcases List.mem_cons.mp hx' with rfl | hx''
            · exact hyw
            · exact hall x (List.mem_cons_of_mem _ hx'')
      | succ k =>
        simp only [List.get?] at hget
        have hwr : risk_order w.risk_level < risk_order r.risk_level :=
          hbefore 0 w (by omega) rfl
        refine ⟨r, k + 2, ?_, ?_, ?_, ?_⟩
        · simp only [worst_fold, if_neg hgt]
          exact hfold
        · simpa using hget
        · intro j x hj hx
          match j with
          | 0 =>
            simp only [List.get?] at hx
            cases hx
            exact hwr
          | 1 =>
            simp only [List.get?] at hx
            cases hx
            exact lt_of_le_of_lt hyw hwr
          | (m + 2) =>
            simp only [List.get?] at hx
            exact hbefore (m + 1) x (by omega) hx
        · intro x hx
          rcases List.mem_cons.mp hx with rfl | hx'
          · exact hall x (List.mem_cons_self _ _)
          · rcases List.mem_cons.mp hx' with rfl | hx''
            · exact le_trans hyw (hall w (List.mem_cons_self _ _))
            · exact hall x (List.mem_cons_of_mem _ hx'')

/-- The source's fold starting from `None` selects the earliest result
of maximal risk order. -/
theorem worst_fold_none_spec (rs : List DrugRiskResult) (hne : rs ≠ []) :
    ∃ r i, worst_fold none rs = some r ∧ rs.get? i = some r ∧
      (∀ j x, j < i → rs.get? j = some x →
        risk_order x.risk_level < risk_order r.risk_level) ∧
      (∀ x ∈ rs, risk_order x.risk_level ≤ risk_order r.risk_level) := by
  cases rs with
  | nil => exact absurd rfl hne
  | cons y rs' =>
    obtain ⟨r, i, hfold, hget, hbefore, hall⟩ := worst_fold_some_spec rs' y
    exact ⟨r, i, hfold, hget, hbefore, hall⟩

/-! ## Claim C4: unknown drug names resolve to a NORMAL "no data" default -/

/-- C4.  For every knowledge base, variant list and drug name whose
trimmed lower-cased form is not a key of the knowledge base,
`analyze_variants` emits exactly one result for that drug (at its
request position), with risk tier NORMAL, gene "N/A", and the
human-readable "No pharmacogenomic data available for '...'."
recommendation (which contains the no-data phrase "data available");
the per-drug computation succeeds, so the case is not an error. -/
theorem C4_unknown_drug_default
    (db : DB) (variants : List Variant) (drug_name : String)
    (hunk : assocFind db (pyStrip (pyLower drug_name)) = none) :
    ∃ r : DrugRiskResult,
      analyze_one_drug db (build_variant_map variants) drug_name =
        .ok { drug_risk := r } ∧
      r.risk_level = "NORMAL" ∧ r.gene = "N/A" ∧
      r.recommendation =
        "No pharmacogenomic data available for '" ++ drug_name ++ "'." ∧
      containsSub "data available" r.recommendation = true ∧
      ∀ (drugs : List String) (i : Nat) (out : List AnalysisResult),
        drugs.get? i = some drug_name →
        analyze_variants db variants drugs = .ok out →
        out.length = drugs.length ∧ out.get? i = some { drug_risk := r } := by
  refine ⟨{ drug_name := drug_name, gene := "N/A",
            recommendation :=
              "No pharmacogenomic data available for '" ++ drug_name ++ "'." },
          ?_, rfl, rfl, rfl, ?_, ?_⟩
  · simp only [analyze_one_drug, hunk]
  · show containsSub "data available"
      ("No pharmacogenomic data available for '" ++ drug_name ++ "'.") = true
    have h1 : ("No pharmacogenomic data available for '" ++ drug_name ++ "'.").toList
        = ("No pharmacogenomic data available for '".toList ++ drug_name.toList)
          ++ "'.".toList := by
      simp [String.toList]
    unfold containsSub
    rw [h1]
    apply isSubL_append_right
    apply isSubL_append_right
    decide
  · intro drugs i out hd hout
    obtain ⟨hlen, hpos⟩ := analyze_variants_loop_ok db (build_variant_map variants)
      drugs out hout
    obtain ⟨r', hr', hget⟩ := hpos i drug_name hd
    rw [show analyze_one_drug db (build_variant_map variants) drug_name =
        .ok { drug_risk :=
          { drug_name := drug_name, gene := "N/A",
            recommendation :=
              "No pharmacogenomic data available for '" ++ drug_name ++ "'." } }
      from by simp only [analyze_one_drug, hunk]] at hr'
    cases hr'
    exact ⟨hlen, hget⟩

/-- Witness for C4 at a concrete unknown drug. -/
theorem C4_witness :
    ∃ r : DrugRiskResult,
      analyze_one_drug [] [] "zzz-unknown-drug" = .ok { drug_risk := r } ∧
      r.risk_level = "NORMAL" ∧ r.gene = "N/A" ∧
      r.recommendation =
        "No pharmacogenomic data available for '" ++ "zzz-unknown-drug" ++ "'." ∧
      containsSub "data available" r.recommendation = true := by
  obtain ⟨r, h1, h2, h3, h4, h5, _⟩ :=
    C4_unknown_drug_default [] [] "zzz-unknown-drug" rfl
  exact ⟨r, h1, h2, h3, h4, h5⟩

/-! ## Claim C1: worst-case selection keeps the earliest maximal tier -/

/-- C1.  For every knowledge base, variant list and drug whose entry
has at least one interaction, when the per-interaction evaluation
completes with results `rs` (one per interaction, in declaration
order), `analyze_variants` keeps as that drug's result the
earliest-evaluated element of `rs` whose risk tier is maximal under
`_RISK_ORDER` (NORMAL < MODERATE < HIGH < CRITICAL): every earlier
element has strictly smaller order (a later interaction replaces the
kept one only when strictly greater, so ties keep the earlier one) and
no element exceeds it; the kept result is also what the full
`analyze_variants` run reports at the drug's request position. -/
theorem C1_worst_case_selection
    (db : DB) (variants : List Variant) (drug_name : String)
    (drug_info : DrugInfo) (rs : List DrugRiskResult)
    (hfind : assocFind db (pyStrip (pyLower drug_name)) = some drug_info)
    (heval : eval_interactions_loop (build_variant_map variants)
      drug_info.name drug_info.interactions = .ok rs)
    (hne : drug_info.interactions ≠ []) :
    ∃ r i, analyze_one_drug db (build_variant_map variants) drug_name =
        .ok { drug_risk := r } ∧
      rs.get? i = some r ∧
      (∀ j x, j < i → rs.get? j = some x →
        risk_order x.risk_level < risk_order r.risk_level) ∧
      (∀ x ∈ rs, risk_order x.risk_level ≤ risk_order r.risk_level) ∧
      ∀ (drugs : List String) (k : Nat) (out : List AnalysisResult),
        drugs.get? k = some drug_name →
        analyze_variants db variants drugs = .ok out →
        out.get? k = some { drug_risk := r } := by
  have hrsne : rs ≠ [] := by
    intro h
    subst h
    have := eval_interactions_loop_length _ _ _ _ heval
    exact hne (List.length_eq_zero.mp this.symm)
  obtain ⟨r, i, hfold, hget, hbefore, hall⟩ := worst_fold_none_spec rs hrsne
  have hone : analyze_one_drug db (build_variant_map variants) drug_name =
      .ok { drug_risk := r } := by
    simp only [analyze_one_drug, hfind, heval, hfold, Option.getD_some]
  refine ⟨r, i, hone, hget, hbefore, hall, ?_⟩
  intro drugs k out hd hout
  obtain ⟨_, hpos⟩ := analyze_variants_loop_ok db (build_variant_map variants)
    drugs out hout
  obtain ⟨r', hr', hget'⟩ := hpos k drug_name hd
  rw [hone] at hr'
  cases hr'
  exact hget'

/-- Witness for C1: a drug with two interactions yielding MODERATE then
CRITICAL (on an empty variant list) resolves to the CRITICAL result. -/
theorem C1_witness :
    (∃ r i, analyze_one_drug
        [("drugx", { name := "DrugX", interactions :=
          [{ rsid := "rsA", gene := "G1", risk_allele := "T",
             phenotypes := [("0/0", { level := some "MODERATE" })] },
           { rsid := "rsB", gene := "G2", risk_allele := "G",
             phenotypes := [("0/0", { level := some "CRITICAL" })] }] })]
        (build_variant_map []) "DrugX" = .ok { drug_risk := r } ∧
      ([{ drug_name := "DrugX", gene := "G1", rsid := some "rsA",
          risk_level := "MODERATE", phenotype := "Unknown",
          recommendation := "No recommendation available." },
        { drug_name := "DrugX", gene := "G2", rsid := some "rsB",
          risk_level := "CRITICAL", phenotype := "Unknown",
          recommendation := "No recommendation available." }] :
        List DrugRiskResult).get? i = some r ∧
      (∀ j x, j < i →
        ([{ drug_name := "DrugX", gene := "G1", rsid := some "rsA",
            risk_level := "MODERATE", phenotype := "Unknown",
            recommendation := "No recommendation available." },
          { drug_name := "DrugX", gene := "G2", rsid := some "rsB",
            risk_level := "CRITICAL", phenotype := "Unknown",
            recommendation := "No recommendation available." }] :
          List DrugRiskResult).get? j = some x →
        risk_order x.risk_level < risk_order r.risk_level)) ∧
    (analyze_one_drug
        [("drugx", { name := "DrugX", interactions :=
          [{ rsid := "rsA", gene := "G1", risk_allele := "T",
             phenotypes := [("0/0", { level := some "MODERATE" })] },
           { rsid := "rsB", gene := "G2", risk_allele := "G",
             phenotypes := [("0/0", { level := some "CRITICAL" })] }] })]
        (build_variant_map []) "DrugX").map
      (fun a => a.drug_risk.risk_level) = .ok "CRITICAL" := by
  constructor
  · obtain ⟨r, i, h1, h2, h3, _, _⟩ := C1_worst_case_selection
      [("drugx", { name := "DrugX", interactions :=
        [{ rsid := "rsA", gene := "G1", risk_allele := "T",
           phenotypes := [("0/0", { level := some "MODERATE" })] },
         { rsid := "rsB", gene := "G2", risk_allele := "G",
           phenotypes := [("0/0", { level := some "CRITICAL" })] }] })]
      [] "DrugX" _
      [{ drug_name := "DrugX", gene := "G1", rsid := some "rsA",
         risk_level := "MODERATE", phenotype := "Unknown",
         recommendation := "No recommendation available." },
       { drug_name := "DrugX", gene := "G2", rsid := some "rsB",
         risk_level := "CRITICAL", phenotype := "Unknown",
         recommendation := "No recommendation available." }]
      rfl (by rfl) (by decide)
    exact ⟨r, i, h1, h2, h3⟩
  · rfl

/-! ## Claim C3: empty inputs

The knowledge base JSON ships with the repository as data (not under
the sources); per the specification's data-model contract every
interaction defines a "0/0" (homozygous-reference) fallback entry, and
its empty-variants invariant — zero variants resolve to NORMAL for
every drug — pins that entry's tier to NORMAL.  That property of the
data is taken as the explicit hypothesis `hdb` below. -/

/-- A successful `assocFind` lookup is a membership. -/
theorem assocFind_mem {α : Type} :
    ∀ (m : List (String × α)) (k : String) (v : α),
      assocFind m k = some v → (k, v) ∈ m := by
  intro m
  induction m with
  | nil => intro k v h; cases h
  | cons kv rest ih =>
    intro k v h
    by_cases hk : kv.1 = k
    · simp only [assocFind, if_pos hk] at h
      cases h
      subst hk
      exact List.mem_cons_self _ _
    · simp only [assocFind, if_neg hk] at h
      exact List.mem_cons_of_mem _ (ih k v h)

/-- With no patient variants, an interaction whose "0/0" entry carries
tier NORMAL (or none) evaluates to a NORMAL result. -/
theorem eval_interaction_empty_vmap (displayName : String) (inter : Interaction)
    (h00 : ∀ pd, assocFind inter.phenotypes "0/0" = some pd →
      pd.level.getD "NORMAL" = "NORMAL") :
    ∃ r, eval_interaction [] displayName inter = .ok r ∧
      r.risk_level = "NORMAL" := by
  cases hpd : assocFind inter.phenotypes "0/0" with
  | none =>
    refine ⟨{ drug_name := displayName, gene := inter.gene, variant := none,
              rsid := some inter.rsid, genotype := none,
              risk_level := "NORMAL", phenotype := "Unknown",
              recommendation := "No recommendation available.",
              evidence_sources := inter.evidence }, ?_, rfl⟩
    simp only [eval_interaction, assocFind, hpd]
    rfl
  | some pd =>
    have hlvl := h00 pd hpd
    refine ⟨{ drug_name := displayName, gene := inter.gene, variant := none,
              rsid := some inter.rsid, genotype := none,
              risk_level := "NORMAL",
              phenotype := pd.phenotype.getD "Unknown",
              recommendation := pd.recommendation.getD "No recommendation available.",
              evidence_sources := inter.evidence }, ?_, rfl⟩
    simp only [eval_interaction, assocFind, hpd]
    rw [hlvl]
    rfl

/-- Pointwise-successful interaction evaluation lifts to the loop. -/
theorem eval_interactions_loop_all_ok (vmap : List (String × Variant))
    (displayName : String) (P : DrugRiskResult → Prop) :
    ∀ (inters : List Interaction),
      (∀ inter ∈ inters, ∃ r, eval_interaction vmap displayName inter = .ok r ∧ P r) →
      ∃ rs, eval_interactions_loop vmap displayName inters = .ok rs ∧
        ∀ r ∈ rs, P r := by
  intro inters
  induction inters with
  | nil =>
    intro _
    exact ⟨[], rfl, by intro r h; cases h⟩
  | cons inter rest ih =>
    intro hall
    obtain ⟨r, hr, hPr⟩ := hall inter (List.mem_cons_self _ _)
    obtain ⟨rs, hrs, hPrs⟩ := ih (fun i hi => hall i (List.mem_cons_of_mem _ hi))
    refine ⟨r :: rs, ?_, ?_⟩
    · simp only [eval_interactions_loop, hr, hrs]
    · intro x hx
      rcases List.mem_cons.mp hx with rfl | hx'
      · exact hPr
      · exact hPrs x hx'

/-- The worst-case fold preserves an all-NORMAL tier. -/
theorem worst_fold_normal :
    ∀ (rs : List DrugRiskResult) (w : Option DrugRiskResult),
      (∀ r ∈ rs, r.risk_level = "NORMAL") →
      (∀ w', w = some w' → w'.risk_level = "NORMAL") →
      ∀ r', worst_fold w rs = some r' → r'.risk_level = "NORMAL" := by
  intro rs
  induction rs with
  | nil =>
    intro w _ hw r' h
    exact hw r' h
  | cons y rs ih =>
    intro w hall hw r' h
    have hy : y.risk_level = "NORMAL" := hall y (List.mem_cons_self _ _)
    cases w with
    | none =>
      have h' : worst_fold (some y) rs = some r' := h
      refine ih _ (fun x hx => hall x (List.mem_cons_of_mem _ hx)) ?_ r' h'
      intro w' hw'
      cases hw'
      exact hy
    | some w0 =>
      have hw0 : w0.risk_level = "NORMAL" := hw w0 rfl
      have h' : worst_fold
          (if risk_order y.risk_level > risk_order w0.risk_level
           then some y else some w0) rs = some r' := h
      refine ih _ (fun x hx => hall x (List.mem_cons_of_mem _ hx)) ?_ r' h'
      intro w' hw'
      by_cases hcmp : risk_order y.risk_level > risk_order w0.risk_level
      · rw [if_pos hcmp] at hw'
        cases hw'
        exact hy
      · rw [if_neg hcmp] at hw'
        cases hw'
        exact hw0

/-- Pointwise-successful per-drug analysis lifts to the drug loop. -/
theorem analyze_variants_loop_all_ok (db : DB) (vmap : List (String × Variant))
    (P : AnalysisResult → Prop) :
    ∀ (ds : List String),
      (∀ d ∈ ds, ∃ r, analyze_one_drug db vmap d = .ok r ∧ P r) →
      ∃ out, analyze_variants_loop db vmap ds = .ok out ∧
        out.length = ds.length ∧
        ∀ i d, ds.get? i = some d → ∃ r, out.get? i = some r ∧ P r := by
  intro ds
  induction ds with
  | nil =>
    intro _
    exact ⟨[], rfl, rfl, by intro i d h; simp at h⟩
  | cons d ds ih =>
    intro hall
    obtain ⟨r, hr, hPr⟩ := hall d (List.mem_cons_self _ _)
    obtain ⟨out, hout, hlen, hpos⟩ :=
      ih (fun x hx => hall x (List.mem_cons_of_mem _ hx))
    refine ⟨r :: out, ?_, by simp [hlen], ?_⟩
    · simp only [analyze_variants_loop, hr, hout]
    · intro i d' hd'
      cases i with
      | zero =>
        simp only [List.get?] at hd'
        cases hd'
        exact ⟨r, rfl, hPr⟩
      | succ k =>
        simp only [List.get?] at hd' ⊢
        exact hpos k d' hd'

/-- C3.  For every knowledge base whose interactions' "0/0" fallback
entries carry tier NORMAL (the shape the spec fixes for the shipped
database): `analyze_variants` on an empty variant list returns one
result per requested drug, in request order, each with risk tier
NORMAL — with no variants no interaction finds a matching variant, so
every interaction falls back to its "0/0" entry — and on an empty drug
list it returns the empty result sequence (for any variants). -/
theorem C3_empty_inputs (db : DB) (drugs : List String) (variants : List Variant)
    (hdb : ∀ entry ∈ db, ∀ inter ∈ entry.2.interactions,
      ∀ pd, assocFind inter.phenotypes "0/0" = some pd →
        pd.level.getD "NORMAL" = "NORMAL") :
    (∃ out, analyze_variants db [] drugs = .ok out ∧
      out.length = drugs.length ∧
      ∀ i d, drugs.get? i = some d →
        ∃ r, out.get? i = some r ∧ r.drug_risk.risk_level = "NORMAL") ∧
    analyze_variants db variants [] = .ok [] := by
  constructor
  · have hper : ∀ d ∈ drugs, ∃ r, analyze_one_drug db [] d = .ok r ∧
        r.drug_risk.risk_level = "NORMAL" := by
      intro d _
      cases hfind : assocFind db (pyStrip (pyLower d)) with
      | none =>
        refine ⟨{ drug_risk := { drug_name := d, gene := "N/A",
                                 recommendation :=
                                   "No pharmacogenomic data available for '"
                                     ++ d ++ "'." } },
                ?_, rfl⟩
        simp only [analyze_one_drug, hfind]
      | some info =>
        have hmem := assocFind_mem db _ info hfind
        have hint : ∀ inter ∈ info.interactions,
            ∃ r, eval_interaction [] info.name inter = .ok r ∧
              r.risk_level = "NORMAL" := by
          intro inter hi
          exact eval_interaction_empty_vmap info.name inter
            (hdb _ hmem inter hi)
        obtain ⟨rs, hrs, hnorm⟩ := eval_interactions_loop_all_ok []
          info.name (fun r => r.risk_level = "NORMAL") info.interactions hint
        refine ⟨{ drug_risk := (worst_fold none rs).getD
                    { drug_name := info.name, gene := "N/A" } }, ?_, ?_⟩
        · simp only [analyze_one_drug, hfind, hrs]
        · show ((worst_fold none rs).getD
            { drug_name := info.name, gene := "N/A" }).risk_level = "NORMAL"
          cases hfold : worst_fold none rs with
          | none => rfl
          | some r' =>
            simp only [Option.getD_some]
            exact worst_fold_normal rs none hnorm (by intro w' h; cases h) r' hfold
    obtain ⟨out, hout, hlen, hpos⟩ := analyze_variants_loop_all_ok db []
      (fun a => a.drug_risk.risk_level = "NORMAL") drugs hper
    exact ⟨out, hout, hlen, hpos⟩
  · rfl

/-- Witness for C3 at a concrete knowledge base and drug list. -/
theorem C3_witness :
    ∃ out, analyze_variants
        [("drugx", { name := "DrugX", interactions :=
          [{ rsid := "rsA", gene := "G1", risk_allele := "T",
             phenotypes := [("0/0", { level := some "NORMAL" }),
                            ("0/1", { level := some "HIGH" })] }] })]
        [] ["DrugX", "unknowndrug"] = .ok out ∧
      out.length = 2 ∧
      ∀ i d, (["DrugX", "unknowndrug"] : List String).get? i = some d →
        ∃ r, out.get? i = some r ∧ r.drug_risk.risk_level = "NORMAL" := by
  obtain ⟨⟨out, hout, hlen, hpos⟩, _⟩ := C3_empty_inputs
    [("drugx", { name := "DrugX", interactions :=
      [{ rsid := "rsA", gene := "G1", risk_allele := "T",
         phenotypes := [("0/0", { level := some "NORMAL" }),
                        ("0/1", { level := some "HIGH" })] }] })]
    ["DrugX", "unknowndrug"] [] (by decide)
  exact ⟨out, hout, hlen, hpos⟩

/-! ## Claim C9: nine-or-fewer header columns give no sample ids -/

/-- A line whose header split has at most nine columns never makes
`sample_ids` non-empty: the `> 9` branch is unreachable, the exactly-9
branch assigns the (dead-conditional) empty list, shorter headers leave
the previous value, and non-header lines never touch `sample_ids`. -/
theorem processLine_sample_ids_empty (st : ParseState) (line : String)
    (hhead : (pyStartsWith "#CHROM" (pyStrip line)
        || pyStartsWith "#chrom" (pyStrip line)) = true →
      (pySplitChar '\t' (pyLstripHash (pyStrip line))).length ≤ 9)
    (hst : st.sample_ids = []) :
    (processLine st line).sample_ids = [] := by
  simp only [processLine]
  by_cases hblank : pyStrip line = ""
  · rw [if_pos hblank]
    exact hst
  rw [if_neg hblank]
  by_cases hmeta : pyStartsWith "##" (pyStrip line) = true
  · rw [if_pos hmeta]
    exact hst
  rw [if_neg hmeta]
  by_cases hh : (pyStartsWith "#CHROM" (pyStrip line)
      || pyStartsWith "#chrom" (pyStrip line)) = true
  · rw [if_pos hh]
    have hle := hhead hh
    show (if (pySplitChar '\t' (pyLstripHash (pyStrip line))).length > 9 then
        (pySplitChar '\t' (pyLstripHash (pyStrip line))).drop 9
      else if (pySplitChar '\t' (pyLstripHash (pyStrip line))).length > 8 then
        (if (pySplitChar '\t' (pyLstripHash (pyStrip line))).length > 9 then
          (pySplitChar '\t' (pyLstripHash (pyStrip line))).drop 9 else [])
      else st.sample_ids) = []
    have h9 : ¬ (pySplitChar '\t' (pyLstripHash (pyStrip line))).length > 9 := by
      omega
    rw [if_neg h9]
    by_cases h8 : (pySplitChar '\t' (pyLstripHash (pyStrip line))).length > 8
    · rw [if_pos h8, if_neg h9]
    · rw [if_neg h8]
      exact hst
  · rw [if_neg hh]
    by_cases hlen : (pySplitChar '\t' (pyStrip line)).length < 8
    · rw [if_pos hlen]
      exact hst
    rw [if_neg hlen]
    cases hv : parse_variant_line (pySplitChar '\t' (pyStrip line)) with
    | none => exact hst
    | some v =>
      show (appendVariantRecords st v).sample_ids = []
      simp only [appendVariantRecords]
      split <;> exact hst

/-- The invariant lifted over the whole line fold. -/
theorem parseVcfLines_sample_ids_empty :
    ∀ (lines : List String) (st : ParseState),
      (∀ line ∈ lines, (pyStartsWith "#CHROM" (pyStrip line)
          || pyStartsWith "#chrom" (pyStrip line)) = true →
        (pySplitChar '\t' (pyLstripHash (pyStrip line))).length ≤ 9) →
      st.sample_ids = [] →
      (List.foldl processLine st lines).sample_ids = [] := by
  intro lines
  induction lines with
  | nil =>
    intro st _ hst
    exact hst
  | cons line rest ih =>
    intro st hall hst
    simp only [List.foldl_cons]
    exact ih (processLine st line)
      (fun x hx => hall x (List.mem_cons_of_mem _ hx))
      (processLine_sample_ids_empty st line
        (hall line (List.mem_cons_self _ _)) hst)

/-- C9.  For every input text all of whose column-header lines have
nine or fewer tab-separated columns, `parse_vcf` returns an empty
`sample_ids` sequence: sample identifiers are produced only by a header
with strictly more than nine columns (the exactly-nine branch always
assigns the empty list), so a file with FORMAT and one sample data
column but a nine-column header still reports no sample identifiers. -/
theorem C9_few_header_columns_no_samples (content : String)
    (hhead : ∀ line ∈ pySplitlines content,
      (pyStartsWith "#CHROM" (pyStrip line)
        || pyStartsWith "#chrom" (pyStrip line)) = true →
      (pySplitChar '\t' (pyLstripHash (pyStrip line))).length ≤ 9) :
    (parse_vcf content).sample_ids = [] := by
  show (parseVcfLines (pySplitlines content)).sample_ids = []
  exact parseVcfLines_sample_ids_empty (pySplitlines content) {} hhead rfl

/-- Witness for C9: a nine-column header (through FORMAT) followed by a
ten-field data line still yields no sample identifiers, while the data
line itself is parsed (with its genotype). -/
theorem C9_witness :
    (parse_vcf ("#CHROM\tPOS\tID\tREF\tALT\tQUAL\tFILTER\tINFO\tFORMAT\n"
        ++ "chr1\t100\trs1\tA\tG\t99\tPASS\tDP=10\tGT\t0/1")).sample_ids = []
    ∧ (parse_vcf ("#CHROM\tPOS\tID\tREF\tALT\tQUAL\tFILTER\tINFO\tFORMAT\n"
        ++ "chr1\t100\trs1\tA\tG\t99\tPASS\tDP=10\tGT\t0/1")).total_variants = 1 := by
  constructor
  · exact C9_few_header_columns_no_samples _ (by decide)
  · rfl

/-! ## Claim C6: malformed data lines are dropped silently -/

/-- A data row (with its eight mandatory columns present) whose
position fails integer parsing, or whose quality is neither "." nor a
parseable float, yields no variant. -/
theorem parse_variant_line_none (fields : List String)
    (hlen : 8 ≤ fields.length)
    (hbad : (∃ p, fields.get? 1 = some p ∧ pyInt p = none) ∨
      (∃ q, fields.get? 5 = some q ∧ q ≠ "." ∧ pyFloatOk q = false)) :
    parse_variant_line fields = none := by
  have h0 := List.get?_eq_get (show 0 < fields.length by omega)
  have h1 := List.get?_eq_get (show 1 < fields.length by omega)
  have h2 := List.get?_eq_get (show 2 < fields.length by omega)
  have h3 := List.get?_eq_get (show 3 < fields.length by omega)
  have h4 := List.get?_eq_get (show 4 < fields.length by omega)
  have h5 := List.get?_eq_get (show 5 < fields.length by omega)
  have h6 := List.get?_eq_get (show 6 < fields.length by omega)
  have h7 := List.get?_eq_get (show 7 < fields.length by omega)
  simp only [parse_variant_line, h0, h1, h2, h3, h4, h5, h6, h7]
  rcases hbad with ⟨p, hp, hpi⟩ | ⟨q, hq, hqdot, hqf⟩
  · rw [h1] at hp
    cases hp
    rw [hpi]
  · rw [h5] at hq
    cases hq
    cases hpi : pyInt (fields.get ⟨1, by omega⟩) with
    | none => rfl
    | some pos =>
      rw [if_neg hqdot, if_neg (by simpa using hqf)]

/-- C6.  A non-blank, non-comment, non-header line that has fewer than
eight tab-separated fields, or whose position fails integer parsing, or
whose quality is neither "." nor float-parseable, contributes no
variant record and raises no error: processing it leaves the parser
state unchanged, so the parse of any file containing it equals the
parse of the same file with the line removed (well-formed lines around
it are still parsed). -/
theorem C6_malformed_line_dropped (line : String)
    (hblank : pyStrip line ≠ "")
    (hmeta : pyStartsWith "##" (pyStrip line) = false)
    (hchrom : pyStartsWith "#CHROM" (pyStrip line) = false)
    (hchrom2 : pyStartsWith "#chrom" (pyStrip line) = false)
    (hbad : (pySplitChar '\t' (pyStrip line)).length < 8 ∨
      (∃ p, (pySplitChar '\t' (pyStrip line)).get? 1 = some p ∧ pyInt p = none) ∨
      (∃ q, (pySplitChar '\t' (pyStrip line)).get? 5 = some q ∧
        q ≠ "." ∧ pyFloatOk q = false)) :
    (∀ st : ParseState, processLine st line = st) ∧
    (∀ pre post : List String,
      parseVcfLines (pre ++ line :: post) = parseVcfLines (pre ++ post)) := by
  have hproc : ∀ st : ParseState, processLine st line = st := by
    intro st
    simp only [processLine]
    rw [if_neg hblank, if_neg (by simp [hmeta]),
      if_neg (by simp [hchrom, hchrom2])]
    by_cases hlen : (pySplitChar '\t' (pyStrip line)).length < 8
    · rw [if_pos hlen]
    · rw [if_neg hlen]
      have hnone : parse_variant_line (pySplitChar '\t' (pyStrip line)) = none := by
        apply parse_variant_line_none _ (by omega)
        rcases hbad with h | h | h
        · exact absurd h hlen
        · exact Or.inl h
        · exact Or.inr h
      rw [hnone]
  refine ⟨hproc, ?_⟩
  intro pre post
  unfold parseVcfLines
  rw [List.foldl_append, List.foldl_append, List.foldl_cons, hproc]

/-- Witness for C6: a file mixing one well-formed data line and one
five-field line yields exactly one variant. -/
theorem C6_witness :
    parseVcfLines ["chr1\t100\trs1\tA\tG\t99\tPASS\tDP=10", "chr1\t200\trs2\tA\tG"]
      = parseVcfLines ["chr1\t100\trs1\tA\tG\t99\tPASS\tDP=10"] ∧
    (parseVcfLines
      ["chr1\t100\trs1\tA\tG\t99\tPASS\tDP=10", "chr1\t200\trs2\tA\tG"]).variants.length
      = 1 := by
  have h := C6_malformed_line_dropped "chr1\t200\trs2\tA\tG"
    (by decide) (by decide) (by decide) (by decide) (Or.inl (by decide))
  constructor
  · exact h.2 ["chr1\t100\trs1\tA\tG\t99\tPASS\tDP=10"] []
  · show (parseVcfLines (["chr1\t100\trs1\tA\tG\t99\tPASS\tDP=10"]
        ++ "chr1\t200\trs2\tA\tG" :: [])).variants.length = 1
    rw [h.2 ["chr1\t100\trs1\tA\tG\t99\tPASS\tDP=10"] []]
    rfl

/-! ## Claim C5: multi-allelic explosion and the no-comma invariant -/

/-- `str.split` never returns an empty piece list. -/
theorem splitOnChar_ne_nil (sep : Char) : ∀ cs, splitOnChar sep cs ≠ [] := by
  intro cs
  cases cs with
  | nil => simp [splitOnChar]
  | cons c cs =>
    simp only [splitOnChar]
    split
    · simp
    · split <;> simp

/-- No piece of `str.split(sep)` contains the separator. -/
theorem not_mem_splitOnChar (sep : Char) :
    ∀ (cs p : List Char), p ∈ splitOnChar sep cs → sep ∉ p := by
  intro cs
  induction cs with
  | nil =>
    intro p hp
    rcases List.mem_singleton.mp hp with rfl
    exact List.not_mem_nil sep
  | cons c cs ih =>
    intro p hp
    by_cases hc : c = sep
    · rw [show splitOnChar sep (c :: cs) = [] :: splitOnChar sep cs from by
        simp [splitOnChar, hc]] at hp
      rcases List.mem_cons.mp hp with rfl | hp'
      · exact List.not_mem_nil sep
      · exact ih p hp'
    · cases hr : splitOnChar sep cs with
      | nil => exact absurd hr (splitOnChar_ne_nil sep cs)
      | cons q qs =>
        rw [show splitOnChar sep (c :: cs) = (c :: q) :: qs from by
          simp [splitOnChar, hc, hr]] at hp
        rcases List.mem_cons.mp hp with rfl | hp'
        · intro hmem
          rcases List.mem_cons.mp hmem with rfl | hmem'
          · exact hc rfl
          · exact ih q (hr ▸ List.mem_cons_self q qs) hmem'
        · exact ih p (hr ▸ List.mem_cons_of_mem q hp')

/-- A singleton split means the input was the single piece and is
separator-free. -/
theorem splitOnChar_eq_singleton (sep : Char) :
    ∀ (cs p : List Char), splitOnChar sep cs = [p] → p = cs ∧ sep ∉ cs := by
  intro cs
  induction cs with
  | nil =>
    intro p hp
    simp only [splitOnChar] at hp
    cases hp
    exact ⟨rfl, List.not_mem_nil sep⟩
  | cons c cs ih =>
    intro p hp
    by_cases hc : c = sep
    · rw [show splitOnChar sep (c :: cs) = [] :: splitOnChar sep cs from by
        simp [splitOnChar, hc]] at hp
      have := congrArg List.length hp
      simp at this
      exact absurd this (splitOnChar_ne_nil sep cs)
    · cases hr : splitOnChar sep cs with
      | nil => exact absurd hr (splitOnChar_ne_nil sep cs)
      | cons q qs =>
        rw [show splitOnChar sep (c :: cs) = (c :: q) :: qs from by
          simp [splitOnChar, hc, hr]] at hp
        have hqs : qs = [] := by
          have := congrArg List.length hp
          simp at this
          exact this
        subst hqs
        have hpq : p = c :: q := by
          have := congrArg (fun l => l.get? 0) hp
          simp at this
          exact this.symm
        obtain ⟨hq, hsep⟩ := ih q hr
        subst hq
        refine ⟨hpq, ?_⟩
        intro hmem
        rcases List.mem_cons.mp hmem with rfl | hmem'
        · exact hc rfl
        · exact hsep hmem'

/-- Dropping a prefix keeps membership. -/
theorem mem_of_mem_dropWhile (f : Char → Bool) :
    ∀ (l : List Char) (x : Char), x ∈ l.dropWhile f → x ∈ l := by
  intro l
  induction l with
  | nil => intro x h; exact h
  | cons c cs ih =>
    intro x h
    rw [List.dropWhile_cons] at h
    by_cases hc : f c = true
    · rw [if_pos hc] at h
      exact List.mem_cons_of_mem _ (ih x h)
    · rw [if_neg hc] at h
      exact h

/-- Stripping keeps membership. -/
theorem mem_of_mem_stripChars (f : Char → Bool) (l : List Char) (x : Char)
    (h : x ∈ stripChars f l) : x ∈ l := by
  unfold stripChars at h
  rw [List.mem_reverse] at h
  have h2 := mem_of_mem_dropWhile f _ _ h
  rw [List.mem_reverse] at h2
  exact mem_of_mem_dropWhile f _ _ h2

/-- Every variant appended by one parsed line has a comma-free `alt`:
multi-allelic rows are exploded along `alt.split(",")` and
single-allele rows had no comma to begin with. -/
theorem processLine_no_comma (st : ParseState) (line : String)
    (hinv : ∀ v ∈ st.variants, ',' ∉ v.alt.toList) :
    ∀ v ∈ (processLine st line).variants, ',' ∉ v.alt.toList := by
  intro v hv
  simp only [processLine] at hv
  by_cases hblank : pyStrip line = ""
  · rw [if_pos hblank] at hv
    exact hinv v hv
  rw [if_neg hblank] at hv
  by_cases hmeta : pyStartsWith "##" (pyStrip line) = true
  · rw [if_pos hmeta] at hv
    exact hinv v hv
  rw [if_neg hmeta] at hv
  by_cases hh : (pyStartsWith "#CHROM" (pyStrip line)
      || pyStartsWith "#chrom" (pyStrip line)) = true
  · rw [if_pos hh] at hv
    exact hinv v hv
  rw [if_neg hh] at hv
  by_cases hlen : (pySplitChar '\t' (pyStrip line)).length < 8
  · rw [if_pos hlen] at hv
    exact hinv v hv
  rw [if_neg hlen] at hv
  cases hpv : parse_variant_line (pySplitChar '\t' (pyStrip line)) with
  | none =>
    rw [hpv] at hv
    exact hinv v hv
  | some w =>
    rw [hpv] at hv
    have hv2 : v ∈ (appendVariantRecords st w).variants := hv
    simp only [appendVariantRecords] at hv2
    by_cases halts : (pySplitChar ',' w.alt).length > 1
    · rw [if_pos halts] at hv2
      have hv' : v ∈ st.variants ++ (pySplitChar ',' w.alt).map
          (fun a => { w with alt := pyStrip a }) := hv2
      rcases List.mem_append.mp hv' with hold | hnew
      · exact hinv v hold
      · obtain ⟨a, ha, rfl⟩ := List.mem_map.mp hnew
        obtain ⟨p, hp, rfl⟩ := List.mem_map.mp ha
        intro hc
        exact not_mem_splitOnChar ',' w.alt.toList p hp
          (mem_of_mem_stripChars isPySpace p ',' hc)
    · rw [if_neg halts] at hv2
      have hv' : v ∈ st.variants ++ [w] := hv2
      rcases List.mem_append.mp hv' with hold | hnew
      · exact hinv v hold
      · rcases List.mem_singleton.mp hnew with rfl
        have hne := splitOnChar_ne_nil ',' v.alt.toList
        have hlen1 : (splitOnChar ',' v.alt.toList).length = 1 := by
          have hlm : (pySplitChar ',' v.alt).length =
              (splitOnChar ',' v.alt.toList).length := by
            simp [pySplitChar]
          rw [hlm] at halts
          cases hsp : splitOnChar ',' v.alt.toList with
          | nil => exact absurd hsp hne
          | cons q qs =>
            rw [hsp] at halts
            simp only [List.length_cons] at halts ⊢
            omega
        obtain ⟨p, hp⟩ := List.length_eq_one.mp hlen1
        exact (splitOnChar_eq_singleton ',' v.alt.toList p hp).2

/-- The invariant lifted over the whole fold. -/
theorem parseVcfLines_no_comma :
    ∀ (lines : List String) (st : ParseState),
      (∀ v ∈ st.variants, ',' ∉ v.alt.toList) →
      ∀ v ∈ (List.foldl processLine st lines).variants, ',' ∉ v.alt.toList := by
  intro lines
  induction lines with
  | nil => intro st hst; exact hst
  | cons line rest ih =>
    intro st hst
    simp only [List.foldl_cons]
    exact ih (processLine st line) (processLine_no_comma st line hst)

/-- C5.  No variant in `parse_vcf`'s output has an `alt` containing a
comma; and a data line whose alternate-allele field splits into k > 1
comma-separated alleles appends exactly those k records in input order,
each a copy of the parsed record differing only in `alt` (the allele,
stripped) — in particular sharing chromosome, position, identifier and
genotype. -/
theorem C5_multiallelic_explosion :
    (∀ (content : String) (v : Variant),
      v ∈ (parse_vcf content).variants → ',' ∉ v.alt.toList) ∧
    (∀ (st : ParseState) (line : String) (v : Variant),
      pyStrip line ≠ "" →
      pyStartsWith "##" (pyStrip line) = false →
      pyStartsWith "#CHROM" (pyStrip line) = false →
      pyStartsWith "#chrom" (pyStrip line) = false →
      ¬ (pySplitChar '\t' (pyStrip line)).length < 8 →
      parse_variant_line (pySplitChar '\t' (pyStrip line)) = some v →
      1 < (pySplitChar ',' v.alt).length →
      (processLine st line).variants =
        st.variants ++ (pySplitChar ',' v.alt).map
          (fun a => { v with alt := pyStrip a })) := by
  constructor
  · intro content v hv
    exact parseVcfLines_no_comma (pySplitlines content) {}
      (by intro x hx; cases hx) v hv
  · intro st line v hblank hmeta hchrom hchrom2 hlen hpv halts
    simp only [processLine]
    rw [if_neg hblank, if_neg (by simp [hmeta]),
      if_neg (by simp [hchrom, hchrom2]), if_neg hlen, hpv]
    show (appendVariantRecords st v).variants =
      st.variants ++ (pySplitChar ',' v.alt).map
        (fun a => { v with alt := pyStrip a })
    simp only [appendVariantRecords]
    rw [if_pos halts]

/-- Witness for C5: a data line with ALT "G,T" appends exactly two
records, with alt "G" and alt "T", sharing all other fields; and the
first output variant of the parsed file has a comma-free alt. -/
theorem C5_witness :
    (processLine {} "chr1\t100\trs1\tA\tG,T\t.\tPASS\tDP=10").variants =
      [{ chrom := "chr1", pos := 100, rsid := some "rs1", ref := "A",
         alt := "G", quality := none, filter_status := "PASS",
         info := [("DP", .str "10")], genotype := none },
       { chrom := "chr1", pos := 100, rsid := some "rs1", ref := "A",
         alt := "T", quality := none, filter_status := "PASS",
         info := [("DP", .str "10")], genotype := none }] ∧
    ',' ∉ ({ chrom := "chr1", pos := 100, rsid := some "rs1", ref := "A",
             alt := "G", quality := none, filter_status := "PASS",
             info := [("DP", .str "10")], genotype := none } :
           Variant).alt.toList := by
  constructor
  · have h := C5_multiallelic_explosion.2 {} "chr1\t100\trs1\tA\tG,T\t.\tPASS\tDP=10"
      { chrom := "chr1", pos := 100, rsid := some "rs1", ref := "A",
        alt := "G,T", quality := none, filter_status := "PASS",
        info := [("DP", .str "10")], genotype := none }
      (by decide) (by decide) (by decide) (by decide) (by decide) (by decide)
      (by decide)
    rw [h]
    rfl
  · exact C5_multiallelic_explosion.1 "chr1\t100\trs1\tA\tG,T\t.\tPASS\tDP=10" _
      (by decide)

end PharmaGuard
